import Mathlib

set_option maxHeartbeats 1000000
set_option maxRecDepth 4096

namespace Gardener

/-- A structured configuration value, mirroring the Go type
`map[string]interface{}` values used throughout `addons.go`
(strings, numbers, booleans, lists, nested string-keyed maps). -/
inductive Val where
  | vstr (s : String)
  | vnum (n : Int)
  | vbool (b : Bool)
  | vlist (l : List Val)
  | vmap (m : List (String × Val))

/-- A configuration tree, mirroring Go's `map[string]interface{}`:
an ordered association list from string keys to structured values. -/
abbrev Cfg := List (String × Val)

/-- Errors surfaced by the embedded operations.  `notFound` mirrors the
distinguishable not-found condition of the cluster client
(`apierrors.IsNotFound`); `nilPointer` models a Go nil-pointer dereference
of a missing secret; `imageNotFound` models the image resolver failing for a
logical name/version pair; `external` models any other remote or generator
failure; `tagged` is a stage-labelled wrapper used by the driver model. -/
inductive Err where
  | notFound
  | nilPointer
  | imageNotFound (name version : String)
  | external (msg : String)
  | tagged (stage : String) (e : Err)
deriving DecidableEq, Repr

/-- Key lookup in an association list, mirroring Go's `m[k]` map read
(returning `none` for a missing key, i.e. the Go zero value). -/
def lookupKey {α : Type} (k : String) : List (String × α) → Option α
  | [] => none
  | kv :: rest => if kv.1 = k then some kv.2 else lookupKey k rest

/-- Insert-or-overwrite for an association list, mirroring Go's
`m[k] = v` map assignment: an existing entry for the key is replaced in
place, otherwise the new entry is appended. -/
def setEntry {α : Type} : List (String × α) → String → α → List (String × α)
  | [], k, v => [(k, v)]
  | kv :: rest, k, v => if kv.1 = k then (k, v) :: rest else kv :: setEntry rest k v

theorem lookupKey_setEntry_self {α : Type} (m : List (String × α)) (k : String) (v : α) :
    lookupKey k (setEntry m k v) = some v := by
  induction m with
  | nil => simp [setEntry, lookupKey]
  | cons kv rest ih =>
    by_cases h : kv.1 = k
    · simp [setEntry, lookupKey, h]
    · simp [setEntry, lookupKey, h, ih]

theorem lookupKey_setEntry_other {α : Type} (m : List (String × α)) (k k2 : String) (v : α)
    (hne : k2 ≠ k) : lookupKey k2 (setEntry m k v) = lookupKey k2 m := by
  induction m with
  | nil => simp [setEntry, lookupKey, Ne.symm hne]
  | cons kv rest ih =>
    by_cases h : kv.1 = k
    · simp [setEntry, lookupKey, h, Ne.symm hne]
    · by_cases h3 : kv.1 = k2
      · simp [setEntry, lookupKey, h, h3, hne, Ne.symm hne]
      · simp [setEntry, lookupKey, h, h3, ih]

theorem setEntry_idem {α : Type} (m : List (String × α)) (k : String) (v : α) :
    setEntry (setEntry m k v) k v = setEntry m k v := by
  induction m with
  | nil => simp [setEntry]
  | cons kv rest ih =>
    by_cases h : kv.1 = k
    · simp [setEntry, h]
    · simp [setEntry, h, ih]

theorem lookupKey_append_left {α : Type} (m1 m2 : List (String × α)) (k : String) (v : α)
    (h : lookupKey k m1 = some v) : lookupKey k (m1 ++ m2) = some v := by
  induction m1 with
  | nil => simp [lookupKey] at h
  | cons kv rest ih =>
    by_cases hk : kv.1 = k
    · simp only [lookupKey, hk, if_true] at h
      simp [lookupKey, hk, h]
    · simp only [lookupKey, hk, if_false] at h
      simp [lookupKey, hk, ih h]

mutual

/-- Modelled from the spec: the merge used by `utils.MergeMaps` (whose source
is outside this repository snapshot) combines two values; when both are
nested maps they are merged recursively key-by-key, otherwise the override
value replaces the base value wholesale (lists and scalars are never
concatenated). -/
def deepMerge : Val → Val → Val
  | Val.vmap m1, Val.vmap m2 =>
    Val.vmap (mergeBase m1 m2 ++ m2.filter (fun kv => (lookupKey kv.1 m1).isNone))
  | _, w => w

/-- Modelled from the spec: the base-driven half of the recursive map merge;
every key of the base map is kept, its value merged with the override's
value for the same key when one exists. -/
def mergeBase : Cfg → Cfg → Cfg
  | [], _ => []
  | (k, v) :: rest, ov =>
    (k, match lookupKey k ov with
        | some w => deepMerge v w
        | none => v) :: mergeBase rest ov

end

/-- Modelled from the spec: `utils.MergeMaps` merges two configuration
trees; nested maps are merged recursively key-by-key with the override
winning at overlapping leaves, scalars and lists are replaced wholesale by
the override, and keys present in only one source are preserved. -/
def MergeMaps (base override : Cfg) : Cfg :=
  mergeBase base override ++ override.filter (fun kv => (lookupKey kv.1 base).isNone)

theorem deepMerge_vmap (m1 m2 : Cfg) :
    deepMerge (Val.vmap m1) (Val.vmap m2) = Val.vmap (MergeMaps m1 m2) := by
  rw [deepMerge, MergeMaps]

theorem lookupKey_mergeBase (base ov : Cfg) (k : String) :
    lookupKey k (mergeBase base ov) =
      (lookupKey k base).map (fun v =>
        match lookupKey k ov with
        | some w => deepMerge v w
        | none => v) := by
  induction base with
  | nil => simp [mergeBase, lookupKey]
  | cons kv rest ih =>
    obtain ⟨k1, v1⟩ := kv
    by_cases h : k1 = k
    · simp [mergeBase, lookupKey, h]
    · simp [mergeBase, lookupKey, h, ih]

theorem lookupKey_mergeBase_none (base ov : Cfg) (k : String)
    (h : lookupKey k base = none) : lookupKey k (mergeBase base ov) = none := by
  rw [lookupKey_mergeBase, h]
  rfl

theorem lookupKey_filter_keyOnly (m : Cfg) (k : String)
    (p : String × Val → Bool) (hp : ∀ v, p (k, v) = true) :
    lookupKey k (m.filter p) = lookupKey k m := by
  induction m with
  | nil => rfl
  | cons kv rest ih =>
    obtain ⟨k1, v1⟩ := kv
    by_cases h : k1 = k
    · subst h
      simp [List.filter, hp v1, lookupKey, ih]
    · by_cases h2 : p (k1, v1)
      · simp [List.filter, h2, lookupKey, h, ih]
      · simp only [List.filter, h2, Bool.false_eq_true, if_false]
        rw [ih, lookupKey, if_neg h]

theorem lookupKey_append_right {α : Type} (m1 m2 : List (String × α)) (k : String)
    (h : lookupKey k m1 = none) : lookupKey k (m1 ++ m2) = lookupKey k m2 := by
  induction m1 with
  | nil => rfl
  | cons kv rest ih =>
    by_cases hk : kv.1 = k
    · simp [lookupKey, hk] at h
    · simp only [lookupKey, hk, if_false] at h
      simp [lookupKey, hk, ih h]

theorem MergeMaps_lookup_both_maps (base ov : Cfg) (k : String) (m1 m2 : Cfg)
    (h1 : lookupKey k base = some (Val.vmap m1)) (h2 : lookupKey k ov = some (Val.vmap m2)) :
    lookupKey k (MergeMaps base ov) = some (Val.vmap (MergeMaps m1 m2)) := by
  apply lookupKey_append_left
  rw [lookupKey_mergeBase, h1, h2]
  simp [deepMerge_vmap]

theorem MergeMaps_lookup_override (base ov : Cfg) (k : String) (v w : Val)
    (h1 : lookupKey k base = some v) (h2 : lookupKey k ov = some w)
    (hnm : (∀ m1, v ≠ Val.vmap m1) ∨ (∀ m2, w ≠ Val.vmap m2)) :
    lookupKey k (MergeMaps base ov) = some w := by
  apply lookupKey_append_left
  rw [lookupKey_mergeBase, h1, h2]
  have hdm : deepMerge v w = w := by
    cases v with
    | vmap m1 =>
      cases w with
      | vmap m2 =>
        rcases hnm with hv | hw
        · exact absurd rfl (hv m1)
        · exact absurd rfl (hw m2)
      | vstr s => simp [deepMerge]
      | vnum n => simp [deepMerge]
      | vbool b => simp [deepMerge]
      | vlist l => simp [deepMerge]
    | vstr s => simp [deepMerge]
    | vnum n => simp [deepMerge]
    | vbool b => simp [deepMerge]
    | vlist l => simp [deepMerge]
  simp [hdm]

theorem MergeMaps_lookup_base_only (base ov : Cfg) (k : String) (v : Val)
    (h1 : lookupKey k base = some v) (h2 : lookupKey k ov = none) :
    lookupKey k (MergeMaps base ov) = some v := by
  apply lookupKey_append_left
  rw [lookupKey_mergeBase, h1, h2]
  rfl

theorem MergeMaps_lookup_override_only (base ov : Cfg) (k : String)
    (h1 : lookupKey k base = none) :
    lookupKey k (MergeMaps base ov) = lookupKey k ov := by
  rw [MergeMaps, lookupKey_append_right _ _ _ (lookupKey_mergeBase_none base ov k h1)]
  apply lookupKey_filter_keyOnly
  intro v
  simp [h1]

/-- A Kubernetes secret as seen by `addons.go`: its string-keyed data map
(`Secret.Data` in Go, byte values modelled as strings). -/
structure Secret where
  data : List (String × String)

/-- A deployment in the shoot cluster's system namespace: its name and
label map, the parts consulted by `ListDeployments`/`DeleteDeployment`. -/
structure Deployment where
  name : String
  labels : List (String × String)

/-- The chart rendered by `ChartShootRenderer.Render`: the chart path,
release name, target namespace and the fully composed values tree. -/
structure RenderedChart where
  chartPath : String
  chartName : String
  ns : String
  values : Cfg

/-- The remote shoot cluster's state as touched by `addons.go` through
`K8sShootClient`: the deployments in the system namespace, the secrets
store written by `CreateSecret`, the charts delivered by apply, and
injected failure behaviours of the remote API (a lookup in
`deleteFailures` makes `DeleteDeployment` fail with that error;
`createSecretFailure`/`listFailure` make the corresponding call fail). -/
structure ClusterState where
  deployments : List Deployment
  secretsStore : List (String × List (String × String))
  appliedCharts : List (String × Cfg)
  deleteFailures : List (String × Err)
  createSecretFailure : Option String
  listFailure : Option String

/-- The part of `Shoot` consulted by `addons.go`: network ranges
(`GetPodNetwork`/`GetServiceNetwork`/`GetNodeNetwork`), the cloud provider,
the optional kube-proxy section with its feature gates
(`Spec.Kubernetes.KubeProxy`), the nginx-ingress addon flag and its
load-balancer source ranges, and the used-as-seed flag
(`helper.IsUsedAsSeed`). -/
structure Shoot where
  podNetwork : String
  serviceNetwork : String
  nodeNetwork : String
  cloudProvider : String
  kubeProxyConf : Option (List (String × Bool))
  nginxIngressEnabled : Bool
  loadBalancerSourceRanges : List String
  usedAsSeed : Bool

/-- The fields of `HybridBotanist` read by the three chart generators:
the shoot description, the secret bundle `b.Secrets`, the checksum map
`b.CheckSums`, the shoot cluster version `b.K8sShootClient.Version()`,
the image resolver behind `b.Botanist.InjectImages`, the upstream config
generators (each returning a configuration tree or an error), and an
injected failure behaviour for `ChartShootRenderer.Render`. -/
structure HybridBotanist where
  Shoot : Shoot
  Secrets : List (String × Secret)
  CheckSums : List (String × String)
  version : String
  resolveImage : String → String → Option String
  GenerateClusterAutoscalerConfig : Except Err Cfg
  GenerateHelmTillerConfig : Except Err Cfg
  GenerateKubeLegoConfig : Except Err Cfg
  GenerateKube2IAMConfig : Except Err Cfg
  GenerateKubernetesDashboardConfig : Except Err Cfg
  GenerateMonocularConfig : Except Err Cfg
  GenerateNginxIngressConfig : Except Err Cfg
  GenerateAdmissionControlConfig : Except Err Cfg
  renderFailure : Option String

/-- A staged computation: the list of remote/stage operations invoked so
far (the invocation trace) together with the result, mirroring Go's
sequential `if err != nil { return nil, err }` control flow. -/
abbrev Step (α : Type) := List String × Except Err α

def stepPure {α : Type} (a : α) : Step α := ([], Except.ok a)

def stepLift {α : Type} (r : Except Err α) : Step α := ([], r)

def stepRun {α : Type} (name : String) (r : Except Err α) : Step α := ([name], r)

def stepBind {α β : Type} : Step α → (α → Step β) → Step β
  | (t, Except.error e), _ => (t, Except.error e)
  | (t, Except.ok a), f => (t ++ (f a).1, (f a).2)

@[simp] theorem stepBind_error {α β : Type} (t : List String) (e : Err) (f : α → Step β) :
    stepBind (t, Except.error e) f = (t, Except.error e) := rfl

@[simp] theorem stepBind_ok {α β : Type} (t : List String) (a : α) (f : α → Step β) :
    stepBind (t, Except.ok a) f = (t ++ (f a).1, (f a).2) := rfl

/-- The label selector deleted by the migration shim in
`generateOptionalAddonsChart`. -/
def heapsterSel : List (String × String) := [("chart", "heapster-0.1.1"), ("origin", "gardener")]

/-- A deployment matches a label selector when every required label pair is
present in its label map. -/
def matchesSel (sel : List (String × String)) (d : Deployment) : Bool :=
  sel.all (fun kv => lookupKey kv.1 d.labels == some kv.2)

/-- `K8sShootClient.ListDeployments` on the system namespace: fails with
the injected remote error if one is set, otherwise returns the deployments
matching the selector. -/
def listDeployments (st : ClusterState) (sel : List (String × String)) :
    Except Err (List Deployment) :=
  match st.listFailure with
  | some m => Except.error (Err.external m)
  | none => Except.ok (st.deployments.filter (matchesSel sel))

/-- `K8sShootClient.DeleteDeployment`: an injected failure for the name is
surfaced as that error; otherwise an existing deployment is removed and a
missing one yields the distinguishable not-found error. -/
def deleteDeployment (st : ClusterState) (name : String) : Except Err ClusterState :=
  match lookupKey name st.deleteFailures with
  | some e => Except.error e
  | none =>
    if st.deployments.any (fun d => d.name == name) then
      Except.ok { st with deployments := st.deployments.filter (fun d => d.name != name) }
    else
      Except.error Err.notFound

/-- `K8sShootClient.CreateSecret` with force-update: fails with the
injected remote error if one is set, otherwise creates or overwrites the
named secret's data in the cluster. -/
def createSecret (st : ClusterState) (name : String) (data : List (String × String)) :
    Except Err ClusterState :=
  match st.createSecretFailure with
  | some m => Except.error (Err.external m)
  | none => Except.ok { st with secretsStore := setEntry st.secretsStore name data }

/-- `ChartShootRenderer.Render`: deterministic packaging of the chart path,
release name, namespace and values, failing only with the injected
renderer error. -/
def render (b : HybridBotanist) (path name ns : String) (values : Cfg) :
    Except Err RenderedChart :=
  match b.renderFailure with
  | some m => Except.error (Err.external m)
  | none => Except.ok ⟨path, name, ns, values⟩

/-- Modelled from the spec: the Image Resolver resolves each logical image
name at the cluster version, failing when no version-compatible entry
exists; on success it returns the map of resolved references. -/
def resolveImages (b : HybridBotanist) (images : List (String × String)) : Except Err Cfg :=
  images.foldr
    (fun p acc =>
      match acc with
      | Except.error e => Except.error e
      | Except.ok m =>
        match b.resolveImage p.2 b.version with
        | some ref => Except.ok ((p.1, Val.vstr ref) :: m)
        | none => Except.error (Err.imageNotFound p.2 b.version))
    (Except.ok [])

/-- Modelled from the spec: `b.Botanist.InjectImages` (whose source is
outside this repository snapshot) augments a configuration tree with the
resolved image references for the requested logical names, or fails with
an image-resolution error. -/
def InjectImages (b : HybridBotanist) (cfg : Cfg) (images : List (String × String)) :
    Except Err Cfg :=
  match resolveImages b images with
  | Except.ok m => Except.ok (setEntry cfg "images" (Val.vmap m))
  | Except.error e => Except.error e

theorem resolveImages_ok_of_all (b : HybridBotanist) (images : List (String × String))
    (h : images.all (fun p => (b.resolveImage p.2 b.version).isSome) = true) :
    ∃ m, resolveImages b images = Except.ok m := by
  induction images with
  | nil => exact ⟨[], rfl⟩
  | cons p rest ih =>
    simp only [List.all_cons, Bool.and_eq_true] at h
    obtain ⟨m, hm⟩ := ih h.2
    obtain ⟨ref, href⟩ := Option.isSome_iff_exists.mp h.1
    exact ⟨(p.1, Val.vstr ref) :: m, by simp [resolveImages] at hm ⊢; rw [hm, href]⟩

theorem resolveImages_error_shape (b : HybridBotanist) (images : List (String × String))
    (e : Err) (h : resolveImages b images = Except.error e) :
    ∃ n v, e = Err.imageNotFound n v := by
  induction images with
  | nil => simp [resolveImages] at h
  | cons p rest ih =>
    simp only [resolveImages, List.foldr_cons] at h
    rcases hrest : List.foldr _ (Except.ok ([] : Cfg)) rest with e2 | m
    · rw [hrest] at h
      exact ih (by simpa [resolveImages, hrest] using h)
    · rw [hrest] at h
      rcases hres : b.resolveImage p.2 b.version with _ | ref
      · rw [hres] at h
        simp only [Except.error.injEq] at h
        exact ⟨p.2, b.version, h.symm⟩
      · rw [hres] at h
        simp at h

theorem InjectImages_ok_of_all (b : HybridBotanist) (cfg : Cfg)
    (images : List (String × String))
    (h : images.all (fun p => (b.resolveImage p.2 b.version).isSome) = true) :
    ∃ m, InjectImages b cfg images = Except.ok (setEntry cfg "images" (Val.vmap m)) := by
  obtain ⟨m, hm⟩ := resolveImages_ok_of_all b images h
  exact ⟨m, by simp [InjectImages, hm]⟩

theorem InjectImages_error_shape (b : HybridBotanist) (cfg : Cfg)
    (images : List (String × String)) (e : Err)
    (h : InjectImages b cfg images = Except.error e) : ∃ n v, e = Err.imageNotFound n v := by
  rcases hres : resolveImages b images with e2 | m
  · rw [InjectImages, hres] at h
    simp only [Except.error.injEq] at h
    exact h ▸ resolveImages_error_shape b images e2 hres
  · rw [InjectImages, hres] at h
    simp at h

theorem InjectImages_lookup_other (b : HybridBotanist) (cfg cfg2 : Cfg)
    (images : List (String × String)) (k : String) (hk : k ≠ "images")
    (h : InjectImages b cfg images = Except.ok cfg2) :
    lookupKey k cfg2 = lookupKey k cfg := by
  rcases hres : resolveImages b images with e2 | m
  · rw [InjectImages, hres] at h; simp at h
  · rw [InjectImages, hres] at h
    simp only [Except.ok.injEq] at h
    rw [← h]
    exact lookupKey_setEntry_other cfg "images" k (Val.vmap m) hk

/-- `gardenv1beta1.DefaultDomain`, the cluster domain used by kube-dns. -/
def defaultDomain : String := "cluster.local"

/-- `secrets.DataKeyCertificateCA`, the CA certificate key in secret data. -/
def dataKeyCertificateCA : String := "ca.crt"

/-- `common.GardenRoleOpenVPNDiffieHellman`, the logical name of the
optional Diffie-Hellman secret. -/
def gardenRoleOpenVPNDiffieHellman : String := "openvpn-diffie-hellman"

/-- `metav1.NamespaceSystem`, the system namespace of the shoot cluster. -/
def namespaceSystem : String := "kube-system"

/-- `common.ChartPath` joined as by `filepath.Join`. -/
def chartPath (sub : String) : String := "charts/" ++ sub

/-- Modelled from the spec: `common.ComputeClusterIP` (source outside this
snapshot) derives the cluster DNS address deterministically from the
service network range and an index; the exact format is immaterial to the
claims. -/
def ComputeClusterIP (network : String) (idx : Nat) : String :=
  network ++ "#" ++ toString idx

/-- Reading a key of a Go data map: a missing key yields the zero value. -/
def dataVal (data : List (String × String)) (k : String) : String :=
  (lookupKey k data).getD ""

/-- Reading `b.CheckSums[name]`: a missing entry yields the zero value. -/
def checkSumOf (b : HybridBotanist) (name : String) : String :=
  (lookupKey name b.CheckSums).getD ""

/-- Dereferencing `b.Secrets[name].Data`: a missing secret is a nil
pointer in Go, so the dereference is modelled as the nil-pointer error. -/
def derefSecretData (b : HybridBotanist) (name : String) :
    Except Err (List (String × String)) :=
  match lookupKey name b.Secrets with
  | some s => Except.ok s.data
  | none => Except.error Err.nilPointer

/-- The configuration trees composed in `generateCoreAddonsChart`'s `var`
block, one field per local variable of the Go function. -/
structure CoreConfigs where
  global : Cfg
  calico : Cfg
  kubeDNS : Cfg
  kubeProxy : Cfg
  metricsServer : Cfg
  vpnShoot : Cfg
  nodeExporter : Cfg

/-- The `global` configuration of `generateCoreAddonsChart`. -/
def globalCfg (b : HybridBotanist) : Cfg := [("podNetwork", Val.vstr b.Shoot.podNetwork)]

/-- The `calicoConfig` local of `generateCoreAddonsChart`. -/
def calicoCfg (b : HybridBotanist) : Cfg := [("cloudProvider", Val.vstr b.Shoot.cloudProvider)]

/-- The `kubeDNSConfig` local of `generateCoreAddonsChart`. -/
def kubeDNSCfg (b : HybridBotanist) : Cfg :=
  [("clusterDNS", Val.vstr (ComputeClusterIP b.Shoot.serviceNetwork 10)),
   ("domain", Val.vstr defaultDomain)]

/-- The `kubeProxyConfig` local of `generateCoreAddonsChart`, including the
conditional feature-gates amendment (`addons.go` lines 78-81). -/
def kubeProxyCfg (b : HybridBotanist) (kubeProxyData : List (String × String)) : Cfg :=
  let base : Cfg :=
    [("kubeconfig", Val.vstr (dataVal kubeProxyData "kubeconfig")),
     ("podAnnotations",
       Val.vmap [("checksum/secret-kube-proxy", Val.vstr (checkSumOf b "kube-proxy"))])]
  match b.Shoot.kubeProxyConf with
  | some fg =>
    base ++ [("featureGates", Val.vmap (fg.map (fun p => (p.1, Val.vbool p.2))))]
  | none => base

/-- The `metricsServerConfig` local of `generateCoreAddonsChart`. -/
def metricsServerCfg (caMetricsData metricsData : List (String × String)) : Cfg :=
  [("tls", Val.vmap [("caBundle", Val.vstr (dataVal caMetricsData dataKeyCertificateCA))]),
   ("secret", Val.vmap [("data", Val.vmap (metricsData.map (fun p => (p.1, Val.vstr p.2))))])]

/-- The `vpnShootConfig` local of `generateCoreAddonsChart`, including the
conditional Diffie-Hellman amendment (`addons.go` lines 83-85). -/
def vpnShootCfg (b : HybridBotanist) (vpnTLSAuthData : List (String × String)) : Cfg :=
  let base : Cfg :=
    [("podNetwork", Val.vstr b.Shoot.podNetwork),
     ("serviceNetwork", Val.vstr b.Shoot.serviceNetwork),
     ("nodeNetwork", Val.vstr b.Shoot.nodeNetwork),
     ("tlsAuth", Val.vstr (dataVal vpnTLSAuthData "vpn.tlsauth")),
     ("podAnnotations",
       Val.vmap [("checksum/secret-vpn-shoot", Val.vstr (checkSumOf b "vpn-shoot"))])]
  match lookupKey gardenRoleOpenVPNDiffieHellman b.Secrets with
  | some dh => base ++ [("diffieHellmanKey", Val.vstr (dataVal dh.data "dh2048.pem"))]
  | none => base

/-- The `var` block and the two conditional amendments of
`generateCoreAddonsChart` (`addons.go` lines 35-85): secret data of
kube-proxy, ca-metrics-server, metrics-server and vpn-seed-tlsauth is
dereferenced unconditionally (in source evaluation order), the kube-proxy
feature gates and the Diffie-Hellman key are added only under their
guards. -/
def coreConfigs (b : HybridBotanist) : Except Err CoreConfigs := do
  let kubeProxyData ← derefSecretData b "kube-proxy"
  let caMetricsData ← derefSecretData b "ca-metrics-server"
  let metricsData ← derefSecretData b "metrics-server"
  let vpnTLSAuthData ← derefSecretData b "vpn-seed-tlsauth"
  Except.ok
    ⟨globalCfg b, calicoCfg b, kubeDNSCfg b, kubeProxyCfg b kubeProxyData,
     metricsServerCfg caMetricsData metricsData, vpnShootCfg b vpnTLSAuthData, []⟩

/-- The image maps of the six `InjectImages` calls of
`generateCoreAddonsChart` and the six of `generateOptionalAddonsChart`. -/
def calicoImages : List (String × String) :=
  [("calico-node", "calico-node"), ("calico-cni", "calico-cni"),
   ("calico-typha", "calico-typha")]

def kubeDNSImages : List (String × String) :=
  [("kube-dns", "kube-dns"), ("kube-dns-dnsmasq", "kube-dns-dnsmasq"),
   ("kube-dns-sidecar", "kube-dns-sidecar"),
   ("kube-dns-autoscaler", "cluster-proportional-autoscaler")]

def kubeProxyImages : List (String × String) := [("hyperkube", "hyperkube")]

def metricsServerImages : List (String × String) := [("metrics-server", "metrics-server")]

def vpnShootImages : List (String × String) := [("vpn-shoot", "vpn-shoot")]

def nodeExporterImages : List (String × String) := [("node-exporter", "node-exporter")]

def helmTillerImages : List (String × String) := [("helm-tiller", "helm-tiller")]

def kubeLegoImages : List (String × String) := [("kube-lego", "kube-lego")]

def kube2IAMImages : List (String × String) := [("kube2iam", "kube2iam")]

def kubernetesDashboardImages : List (String × String) :=
  [("kubernetes-dashboard", "kubernetes-dashboard")]

def monocularImages : List (String × String) :=
  [("monocular-api", "monocular-api"), ("monocular-ui", "monocular-ui"),
   ("busybox", "busybox")]

def nginxIngressImages : List (String × String) :=
  [("nginx-ingress-controller", "nginx-ingress-controller"),
   ("ingress-default-backend", "ingress-default-backend")]

/-- `generateCoreAddonsChart` (`addons.go` lines 34-127): compose the core
configuration trees, inject images into each of the six addon trees in
source order, create (force-update) the `vpn-shoot` secret in the system
namespace from the vpn-shoot secret's data, then render the `shoot-core`
chart over the assembled values. -/
def generateCoreAddonsChart (b : HybridBotanist) (st : ClusterState) :
    Step (ClusterState × RenderedChart) :=
  stepBind (stepLift (coreConfigs b)) (fun c =>
  stepBind (stepRun "InjectImages(calico)" (InjectImages b c.calico calicoImages)) (fun calico =>
  stepBind (stepRun "InjectImages(kube-dns)" (InjectImages b c.kubeDNS kubeDNSImages)) (fun kubeDNS =>
  stepBind (stepRun "InjectImages(kube-proxy)" (InjectImages b c.kubeProxy kubeProxyImages)) (fun kubeProxy =>
  stepBind (stepRun "InjectImages(metrics-server)" (InjectImages b c.metricsServer metricsServerImages)) (fun metricsServer =>
  stepBind (stepRun "InjectImages(vpn-shoot)" (InjectImages b c.vpnShoot vpnShootImages)) (fun vpnShoot =>
  stepBind (stepRun "InjectImages(node-exporter)" (InjectImages b c.nodeExporter nodeExporterImages)) (fun nodeExporter =>
  stepBind (stepRun "CreateSecret(vpn-shoot)"
    (match derefSecretData b "vpn-shoot" with
     | Except.ok d => createSecret st "vpn-shoot" d
     | Except.error e => Except.error e)) (fun st1 =>
  stepBind (stepRun "Render(shoot-core)"
    (render b (chartPath "shoot-core") "shoot-core" namespaceSystem
      [("global", Val.vmap c.global),
       ("kube-dns", Val.vmap kubeDNS),
       ("kube-proxy", Val.vmap kubeProxy),
       ("vpn-shoot", Val.vmap vpnShoot),
       ("calico", Val.vmap calico),
       ("metrics-server", Val.vmap metricsServer),
       ("monitoring", Val.vmap [("node-exporter", Val.vmap nodeExporter)])]))
    (fun chart => stepPure (st1, chart))))))))))

/-- The conditional nginx-ingress composition of
`generateOptionalAddonsChart` (`addons.go` lines 161-182): when the
nginx-ingress addon is enabled the load-balancer source ranges are merged
over the provider base configuration, and for shoots used as seed an
additional resource-limits merge is applied; otherwise the base
configuration is used unmodified. -/
def sourceRangesOverride (b : HybridBotanist) : Cfg :=
  [("controller",
    Val.vmap
      [("service",
        Val.vmap
          [("loadBalancerSourceRanges",
            Val.vlist (b.Shoot.loadBalancerSourceRanges.map Val.vstr))])])]

def seedResourceLimitsOverride : Cfg :=
  [("controller",
    Val.vmap
      [("resources",
        Val.vmap
          [("limits",
            Val.vmap [("cpu", Val.vstr "500m"), ("memory", Val.vstr "1024Mi")])])])]

def composeNginxIngress (b : HybridBotanist) (base : Cfg) : Cfg :=
  if b.Shoot.nginxIngressEnabled then
    let merged := MergeMaps base (sourceRangesOverride b)
    if b.Shoot.usedAsSeed then MergeMaps merged seedResourceLimitsOverride
    else merged
  else base

/-- The deletion loop over the listed legacy heapster deployments
(`addons.go` lines 221-225): each listed deployment is deleted, a
not-found failure is swallowed, any other failure aborts with that
error. -/
def runDeleteLoop : ClusterState → List Deployment → Step ClusterState
  | st, [] => stepPure st
  | st, d :: rest =>
    match deleteDeployment st d.name with
    | Except.ok st1 =>
      let next := runDeleteLoop st1 rest
      ("DeleteDeployment" :: next.1, next.2)
    | Except.error e =>
      if e = Err.notFound then
        let next := runDeleteLoop st rest
        ("DeleteDeployment" :: next.1, next.2)
      else
        (["DeleteDeployment"], Except.error e)

/-- The legacy-heapster cleanup of `generateOptionalAddonsChart`
(`addons.go` lines 215-225): list the deployments in the system namespace
matching `chart=heapster-0.1.1,origin=gardener` and delete each one. -/
def cleanupHeapster (st : ClusterState) : Step ClusterState :=
  stepBind (stepRun "ListDeployments" (listDeployments st heapsterSel))
    (fun ds => runDeleteLoop st ds)

/-- `generateOptionalAddonsChart` (`addons.go` lines 132-236): run the
seven config generators in source order, compose the nginx-ingress
configuration, inject images into the six image-bearing addon trees,
perform the legacy heapster cleanup, then render the `shoot-addons`
chart. -/
def generateOptionalAddonsChart (b : HybridBotanist) (st : ClusterState) :
    Step (ClusterState × RenderedChart) :=
  stepBind (stepRun "GenerateClusterAutoscalerConfig" b.GenerateClusterAutoscalerConfig) (fun clusterAutoscalerConfig =>
  stepBind (stepRun "GenerateHelmTillerConfig" b.GenerateHelmTillerConfig) (fun helmTillerConfig =>
  stepBind (stepRun "GenerateKubeLegoConfig" b.GenerateKubeLegoConfig) (fun kubeLegoConfig =>
  stepBind (stepRun "GenerateKube2IAMConfig" b.GenerateKube2IAMConfig) (fun kube2IAMConfig =>
  stepBind (stepRun "GenerateKubernetesDashboardConfig" b.GenerateKubernetesDashboardConfig) (fun kubernetesDashboardConfig =>
  stepBind (stepRun "GenerateMonocularConfig" b.GenerateMonocularConfig) (fun monocularConfig =>
  stepBind (stepRun "GenerateNginxIngressConfig" b.GenerateNginxIngressConfig) (fun nginxIngressConfig0 =>
  stepBind (stepRun "InjectImages(helm-tiller)" (InjectImages b helmTillerConfig helmTillerImages)) (fun helmTiller =>
  stepBind (stepRun "InjectImages(kube-lego)" (InjectImages b kubeLegoConfig kubeLegoImages)) (fun kubeLego =>
  stepBind (stepRun "InjectImages(kube2iam)" (InjectImages b kube2IAMConfig kube2IAMImages)) (fun kube2IAM =>
  stepBind (stepRun "InjectImages(kubernetes-dashboard)" (InjectImages b kubernetesDashboardConfig kubernetesDashboardImages)) (fun kubernetesDashboard =>
  stepBind (stepRun "InjectImages(monocular)" (InjectImages b monocularConfig monocularImages)) (fun monocular =>
  stepBind (stepRun "InjectImages(nginx-ingress)" (InjectImages b (composeNginxIngress b nginxIngressConfig0) nginxIngressImages)) (fun nginxIngress =>
  stepBind (cleanupHeapster st) (fun st1 =>
  stepBind (stepRun "Render(shoot-addons)"
    (render b (chartPath "shoot-addons") "addons" namespaceSystem
      [("cluster-autoscaler", Val.vmap clusterAutoscalerConfig),
       ("helm-tiller", Val.vmap helmTiller),
       ("kube-lego", Val.vmap kubeLego),
       ("kube2iam", Val.vmap kube2IAM),
       ("kubernetes-dashboard", Val.vmap kubernetesDashboard),
       ("monocular", Val.vmap monocular),
       ("nginx-ingress", Val.vmap nginxIngress)]))
    (fun chart => stepPure (st1, chart))))))))))))))))

/-- `generateAdmissionControlsChart` (`addons.go` lines 241-248): obtain
the provider's admission-control configuration and render the
`shoot-admission-controls` chart over it. -/
def generateAdmissionControlsChart (b : HybridBotanist) : Step RenderedChart :=
  stepBind (stepRun "GenerateAdmissionControlConfig" b.GenerateAdmissionControlConfig) (fun config =>
  stepBind (stepRun "Render(shoot-admission-controls)"
    (render b (chartPath "shoot-admission-controls") "admission-controls" namespaceSystem config))
    (fun chart => stepPure chart))

/-- Modelled from the spec: applying a rendered bundle delivers it to the
target cluster as a configuration object keyed by the chart name,
created or updated in place; no other part of the cluster state is
touched. -/
def applyChart (st : ClusterState) (c : RenderedChart) : ClusterState :=
  { st with appliedCharts := setEntry st.appliedCharts c.chartName c.values }

/-- Modelled from the spec: the Reconciliation Driver tags a failing
stage's error with the stage name when reporting upward; the
chart-generation functions themselves return the error unmodified. -/
def deployStage {α : Type} (stageName : String) (r : Except Err α) : Except Err α :=
  match r with
  | Except.error e => Except.error (Err.tagged stageName e)
  | Except.ok a => Except.ok a

/-- Modelled from the spec: the Credential Manager computes the checksum
map from the secret bundle by hashing each secret's data with a
deterministic content hash. -/
def computeCheckSums (hash : List (String × String) → String)
    (bundle : List (String × Secret)) : List (String × String) :=
  bundle.map (fun p => (p.1, hash p.2.data))

theorem lookupKey_computeCheckSums (hash : List (String × String) → String)
    (bundle : List (String × Secret)) (n : String) :
    lookupKey n (computeCheckSums hash bundle) =
      (lookupKey n bundle).map (fun s => hash s.data) := by
  induction bundle with
  | nil => rfl
  | cons p rest ih =>
    simp only [computeCheckSums, List.map_cons, lookupKey] at ih ⊢
    by_cases h : p.1 = n
    · simp [h]
    · simp [h, ih]

/-- The supported infrastructure providers (one variant per cloud
botanist implementation behind the `ShootCloudBotanist` interface). -/
inductive Provider where
  | aws
  | azure
  | gcp
  | openstack
  | alicloud
  | localp
deriving DecidableEq, Repr

/-- The dispatcher operations of the `ShootCloudBotanist` interface used
by `addons.go`. -/
inductive DispatcherOp where
  | kube2IAM
  | nginxIngress
  | admissionControl
deriving DecidableEq, Repr

/-- Modelled from the spec: the operations a given provider actually
implements with non-empty output; only AWS bridges cloud IAM. -/
def providerSupports : Provider → DispatcherOp → Bool
  | Provider.aws, _ => true
  | _, DispatcherOp.kube2IAM => false
  | _, _ => true

/-- Modelled from the spec: the Provider Dispatcher's fixed operation
table; every operation of every provider variant returns a configuration
tree, an unsupported operation returning the explicit empty tree rather
than an error. -/
def dispatch : Provider → DispatcherOp → Except Err Cfg
  | Provider.aws, DispatcherOp.kube2IAM => Except.ok [("enabled", Val.vbool true)]
  | _, DispatcherOp.kube2IAM => Except.ok []
  | _, DispatcherOp.nginxIngress =>
    Except.ok [("controller", Val.vmap [("service", Val.vmap [])])]
  | _, DispatcherOp.admissionControl => Except.ok [("admission", Val.vmap [])]

/-- The names of the sixteen sequential stage operations of
`generateOptionalAddonsChart`, in source order (every delete invocation of
the cleanup loop shares the single `DeleteDeployment` label). -/
def optionalStageNames : List String :=
  ["GenerateClusterAutoscalerConfig", "GenerateHelmTillerConfig", "GenerateKubeLegoConfig",
   "GenerateKube2IAMConfig", "GenerateKubernetesDashboardConfig", "GenerateMonocularConfig",
   "GenerateNginxIngressConfig", "InjectImages(helm-tiller)", "InjectImages(kube-lego)",
   "InjectImages(kube2iam)", "InjectImages(kubernetes-dashboard)", "InjectImages(monocular)",
   "InjectImages(nginx-ingress)", "ListDeployments", "DeleteDeployment",
   "Render(shoot-addons)"]

/-- Discard the payload of a fallible operation, keeping only its
success/failure status. -/
def discardE {α : Type} : Except Err α → Except Err Unit
  | Except.ok _ => Except.ok ()
  | Except.error e => Except.error e

/-- The status (success or error) of each of the sixteen sequential stage
operations of `generateOptionalAddonsChart`, as a function of the inputs,
each computed under the assumption that the preceding stages succeeded. -/
def optionalStageStatus (b : HybridBotanist) (st : ClusterState) : List (Except Err Unit) :=
  [discardE b.GenerateClusterAutoscalerConfig,
   discardE b.GenerateHelmTillerConfig,
   discardE b.GenerateKubeLegoConfig,
   discardE b.GenerateKube2IAMConfig,
   discardE b.GenerateKubernetesDashboardConfig,
   discardE b.GenerateMonocularConfig,
   discardE b.GenerateNginxIngressConfig,
   discardE (b.GenerateHelmTillerConfig.bind (fun c => InjectImages b c helmTillerImages)),
   discardE (b.GenerateKubeLegoConfig.bind (fun c => InjectImages b c kubeLegoImages)),
   discardE (b.GenerateKube2IAMConfig.bind (fun c => InjectImages b c kube2IAMImages)),
   discardE (b.GenerateKubernetesDashboardConfig.bind
     (fun c => InjectImages b c kubernetesDashboardImages)),
   discardE (b.GenerateMonocularConfig.bind (fun c => InjectImages b c monocularImages)),
   discardE (b.GenerateNginxIngressConfig.bind
     (fun c => InjectImages b (composeNginxIngress b c) nginxIngressImages)),
   discardE (listDeployments st heapsterSel),
   discardE ((listDeployments st heapsterSel).bind (fun ds => (runDeleteLoop st ds).2)),
   discardE (match b.renderFailure with
             | some m => (Except.error (Err.external m) : Except Err Unit)
             | none => Except.ok ())]

/-- The names of the nine sequential stages of `generateCoreAddonsChart`:
the configuration composition (which can only fail through a nil secret
dereference and performs no remote call), the six image injections, the
vpn-shoot secret creation and the rendering. -/
def coreStageNames : List String :=
  ["ComposeCoreConfigs", "InjectImages(calico)", "InjectImages(kube-dns)",
   "InjectImages(kube-proxy)", "InjectImages(metrics-server)", "InjectImages(vpn-shoot)",
   "InjectImages(node-exporter)", "CreateSecret(vpn-shoot)", "Render(shoot-core)"]

/-- The status of each of the nine sequential stages of
`generateCoreAddonsChart`, as a function of the inputs. -/
def coreStageStatus (b : HybridBotanist) (st : ClusterState) : List (Except Err Unit) :=
  [discardE (coreConfigs b),
   discardE ((coreConfigs b).bind (fun c => InjectImages b c.calico calicoImages)),
   discardE ((coreConfigs b).bind (fun c => InjectImages b c.kubeDNS kubeDNSImages)),
   discardE ((coreConfigs b).bind (fun c => InjectImages b c.kubeProxy kubeProxyImages)),
   discardE ((coreConfigs b).bind (fun c => InjectImages b c.metricsServer metricsServerImages)),
   discardE ((coreConfigs b).bind (fun c => InjectImages b c.vpnShoot vpnShootImages)),
   discardE ((coreConfigs b).bind (fun c => InjectImages b c.nodeExporter nodeExporterImages)),
   discardE ((derefSecretData b "vpn-shoot").bind (fun d => createSecret st "vpn-shoot" d)),
   discardE (match b.renderFailure with
             | some m => (Except.error (Err.external m) : Except Err Unit)
             | none => Except.ok ())]

/-- C4: When the specification disables the ingress addon, the composed
nginx-ingress configuration equals the provider dispatcher's base
configuration with no merge applied; if the addon flag is set the
load-balancer source-range merge is applied, and the resource-limits merge
is additionally applied exactly when the shoot is flagged as used-as-seed. -/
theorem nginxIngress_merge_conditional (b : HybridBotanist) (base : Cfg) :
    (b.Shoot.nginxIngressEnabled = false → composeNginxIngress b base = base) ∧
    (b.Shoot.nginxIngressEnabled = true → b.Shoot.usedAsSeed = false →
      composeNginxIngress b base = MergeMaps base (sourceRangesOverride b)) ∧
    (b.Shoot.nginxIngressEnabled = true → b.Shoot.usedAsSeed = true →
      composeNginxIngress b base =
        MergeMaps (MergeMaps base (sourceRangesOverride b)) seedResourceLimitsOverride) := by
  refine ⟨fun h1 => ?_, fun h1 h2 => ?_, fun h1 h2 => ?_⟩
  · simp [composeNginxIngress, h1]
  · simp [composeNginxIngress, h1, h2]
  · simp [composeNginxIngress, h1, h2]

/-- A demonstration botanist whose shoot disables the nginx-ingress addon. -/
def shootDisabled : Shoot :=
  ⟨"10.0.0.0/16", "10.1.0.0/16", "10.2.0.0/16", "alicloud", none, false, [], false⟩

def botDisabled : HybridBotanist :=
  ⟨shootDisabled, [], [], "1.11.0", fun n v => some (n ++ ":" ++ v),
   Except.ok [], Except.ok [], Except.ok [], Except.ok [], Except.ok [],
   Except.ok [], Except.ok [], Except.ok [], none⟩

theorem nginxIngress_merge_conditional_w :
    composeNginxIngress botDisabled [("controller", Val.vmap [("replicaCount", Val.vnum 2)])] =
      [("controller", Val.vmap [("replicaCount", Val.vnum 2)])] :=
  (nginxIngress_merge_conditional botDisabled
    [("controller", Val.vmap [("replicaCount", Val.vnum 2)])]).1 rfl

/-- C5: Merging a base configuration tree with an override tree merges
nested maps recursively key-by-key with the override winning at
overlapping leaves, replaces overlapping scalar and list values wholesale
by the override, and preserves keys present in only one of the two
sources. -/
theorem MergeMaps_semantics (base ov : Cfg) (k : String) :
    (∀ m1 m2, lookupKey k base = some (Val.vmap m1) → lookupKey k ov = some (Val.vmap m2) →
      lookupKey k (MergeMaps base ov) = some (Val.vmap (MergeMaps m1 m2))) ∧
    (∀ v w, lookupKey k base = some v → lookupKey k ov = some w →
      ((∀ m1, v ≠ Val.vmap m1) ∨ (∀ m2, w ≠ Val.vmap m2)) →
      lookupKey k (MergeMaps base ov) = some w) ∧
    (∀ v, lookupKey k base = some v → lookupKey k ov = none →
      lookupKey k (MergeMaps base ov) = some v) ∧
    (lookupKey k base = none → lookupKey k (MergeMaps base ov) = lookupKey k ov) :=
  ⟨fun m1 m2 h1 h2 => MergeMaps_lookup_both_maps base ov k m1 m2 h1 h2,
   fun v w h1 h2 hnm => MergeMaps_lookup_override base ov k v w h1 h2 hnm,
   fun v h1 h2 => MergeMaps_lookup_base_only base ov k v h1 h2,
   fun h1 => MergeMaps_lookup_override_only base ov k h1⟩

def demoBase : Cfg :=
  [("scalar", Val.vstr "old"), ("keep", Val.vstr "stays"),
   ("tree", Val.vmap [("x", Val.vstr "1"), ("y", Val.vstr "2")])]

def demoOverride : Cfg :=
  [("scalar", Val.vstr "new"), ("tree", Val.vmap [("x", Val.vstr "9")]),
   ("fresh", Val.vlist [Val.vnum 1])]

theorem MergeMaps_semantics_w :
    lookupKey "scalar" (MergeMaps demoBase demoOverride) = some (Val.vstr "new") :=
  (MergeMaps_semantics demoBase demoOverride "scalar").2.1 (Val.vstr "old") (Val.vstr "new")
    (by simp [demoBase, lookupKey]) (by simp [demoOverride, lookupKey])
    (Or.inl (fun m1 h => Val.noConfusion h))

/-- C7: For fixed inputs the chart generation is deterministic (the
embedded composition and rendering are pure functions, so two invocations
yield identical rendered bundles), and applying the same rendered bundle
twice leaves the cluster exactly as after the first apply, with no
additional side effects. -/
theorem generation_deterministic_apply_idempotent :
    (∀ (b : HybridBotanist) (st : ClusterState),
      generateCoreAddonsChart b st = generateCoreAddonsChart b st ∧
      generateOptionalAddonsChart b st = generateOptionalAddonsChart b st ∧
      generateAdmissionControlsChart b = generateAdmissionControlsChart b) ∧
    (∀ (st : ClusterState) (c : RenderedChart),
      applyChart (applyChart st c) c = applyChart st c) :=
  ⟨fun _ _ => ⟨rfl, rfl, rfl⟩,
   fun st c => by simp [applyChart, setEntry_idem]⟩

/-- C8: For every provider variant and every dispatcher operation the
operation returns a configuration tree (a valid mergeable structure), and
an operation the provider does not support returns the explicit empty
tree, never an error. -/
theorem dispatcher_total (p : Provider) (op : DispatcherOp) :
    (∃ m, dispatch p op = Except.ok m) ∧
    (providerSupports p op = false → dispatch p op = Except.ok []) := by
  cases p <;> cases op <;> simp [dispatch, providerSupports]

theorem dispatcher_total_w : dispatch Provider.alicloud DispatcherOp.kube2IAM = Except.ok [] :=
  (dispatcher_total Provider.alicloud DispatcherOp.kube2IAM).2 rfl

theorem runDeleteLoop_ok (ds : List Deployment) (st : ClusterState)
    (hno : ∀ d ∈ ds, lookupKey d.name st.deleteFailures = none) :
    ∃ st1, runDeleteLoop st ds = (List.replicate ds.length "DeleteDeployment", Except.ok st1) ∧
      (∀ x ∈ st1.deployments, x ∈ st.deployments ∧ x.name ∉ ds.map Deployment.name) ∧
      st1.deleteFailures = st.deleteFailures ∧ st1.listFailure = st.listFailure ∧
      st1.secretsStore = st.secretsStore ∧ st1.appliedCharts = st.appliedCharts ∧
      st1.createSecretFailure = st.createSecretFailure := by
  induction ds generalizing st with
  | nil => exact ⟨st, rfl, fun x hx => ⟨hx, by simp⟩, rfl, rfl, rfl, rfl, rfl⟩
  | cons d rest ih =>
    have hd : lookupKey d.name st.deleteFailures = none := hno d (by simp)
    by_cases hex : st.deployments.any (fun d2 => d2.name == d.name)
    · set st2 : ClusterState :=
        { st with deployments := st.deployments.filter (fun d2 => d2.name != d.name) } with hst2
      have hdel : deleteDeployment st d.name = Except.ok st2 := by
        simp [deleteDeployment, hd, hex, hst2]
      have hnorest : ∀ x ∈ rest, lookupKey x.name st2.deleteFailures = none := by
        intro x hx
        exact hno x (by simp [hx])
      obtain ⟨st1, hrun, hmem, hf, hl, hs, ha, hc⟩ := ih st2 hnorest
      refine ⟨st1, ?_, ?_, hf, hl, hs, ha, hc⟩
      · simp [runDeleteLoop, hdel, hrun, List.replicate_succ]
      · intro x hx
        obtain ⟨hx2, hnames⟩ := hmem x hx
        have hx3 : x ∈ st.deployments ∧ (x.name != d.name) = true := by
          simpa [hst2, List.mem_filter] using hx2
        refine ⟨hx3.1, ?_⟩
        simp only [List.map_cons, List.mem_cons, not_or]
        exact ⟨by simpa using hx3.2, hnames⟩
    · have hdel : deleteDeployment st d.name = Except.error Err.notFound := by
        simp [deleteDeployment, hd, hex]
      have hnorest : ∀ x ∈ rest, lookupKey x.name st.deleteFailures = none := by
        intro x hx
        exact hno x (by simp [hx])
      obtain ⟨st1, hrun, hmem, hf, hl, hs, ha, hc⟩ := ih st hnorest
      refine ⟨st1, ?_, ?_, hf, hl, hs, ha, hc⟩
      · simp [runDeleteLoop, hdel, hrun, List.replicate_succ]
      · intro x hx
        obtain ⟨hx2, hnames⟩ := hmem x hx
        refine ⟨hx2, ?_⟩
        simp only [List.map_cons, List.mem_cons, not_or]
        refine ⟨?_, hnames⟩
        intro hxeq
        apply hex
        rw [List.any_eq_true]
        exact ⟨x, hx2, by simp [hxeq]⟩

theorem runDeleteLoop_abort (pre : List Deployment) (d : Deployment) (rest : List Deployment)
    (st : ClusterState) (e : Err)
    (hpre : ∀ x ∈ pre, lookupKey x.name st.deleteFailures = none)
    (hd : lookupKey d.name st.deleteFailures = some e) (hne : e ≠ Err.notFound) :
    (runDeleteLoop st (pre ++ d :: rest)).2 = Except.error e := by
  induction pre generalizing st with
  | nil =>
    have hdel : deleteDeployment st d.name = Except.error e := by
      simp [deleteDeployment, hd]
    simp [runDeleteLoop, hdel, hne]
  | cons x pre2 ih =>
    have hx : lookupKey x.name st.deleteFailures = none := hpre x (by simp)
    by_cases hex : st.deployments.any (fun d2 => d2.name == x.name)
    · set st2 : ClusterState :=
        { st with deployments := st.deployments.filter (fun d2 => d2.name != x.name) } with hst2
      have hdel : deleteDeployment st x.name = Except.ok st2 := by
        simp [deleteDeployment, hx, hex, hst2]
      have hrec := ih st2 (fun y hy => hpre y (by simp [hy])) hd
      simp [runDeleteLoop, hdel, hrec]
    · have hdel : deleteDeployment st x.name = Except.error Err.notFound := by
        simp [deleteDeployment, hx, hex]
      have hrec := ih st (fun y hy => hpre y (by simp [hy])) hd
      simp [runDeleteLoop, hdel, hrec]

theorem runDeleteLoop_swallow (ds : List Deployment) (st : ClusterState)
    (h : ∀ d ∈ ds, lookupKey d.name st.deleteFailures = none ∨
      lookupKey d.name st.deleteFailures = some Err.notFound) :
    ∃ st1, (runDeleteLoop st ds).2 = Except.ok st1 := by
  induction ds generalizing st with
  | nil => exact ⟨st, rfl⟩
  | cons d rest ih =>
    rcases h d (by simp) with hd | hd
    · by_cases hex : st.deployments.any (fun d2 => d2.name == d.name)
      · set st2 : ClusterState :=
          { st with deployments := st.deployments.filter (fun d2 => d2.name != d.name) } with hst2
        have hdel : deleteDeployment st d.name = Except.ok st2 := by
          simp [deleteDeployment, hd, hex, hst2]
        obtain ⟨st1, hst1⟩ := ih st2 (fun y hy => h y (by simp [hy]))
        exact ⟨st1, by simp [runDeleteLoop, hdel, hst1]⟩
      · have hdel : deleteDeployment st d.name = Except.error Err.notFound := by
          simp [deleteDeployment, hd, hex]
        obtain ⟨st1, hst1⟩ := ih st (fun y hy => h y (by simp [hy]))
        exact ⟨st1, by simp [runDeleteLoop, hdel, hst1]⟩
    · have hdel : deleteDeployment st d.name = Except.error Err.notFound := by
        simp [deleteDeployment, hd]
      obtain ⟨st1, hst1⟩ := ih st (fun y hy => h y (by simp [hy]))
      exact ⟨st1, by simp [runDeleteLoop, hdel, hst1]⟩

/-- C1: The legacy heapster cleanup lists deployments matching
`chart=heapster-0.1.1,origin=gardener` in the system namespace and deletes
each one (one delete invocation per match); after a successful pass the
listing is empty, so a second pass performs zero deletions and completes
without error on the unchanged state; a delete failing with a
non-not-found error aborts the stage with that error, while a delete
failing with not-found is swallowed and the pass still succeeds. -/
theorem heapster_cleanup_idempotent (st : ClusterState) :
    (st.listFailure = none →
      (∀ d ∈ st.deployments, matchesSel heapsterSel d = true →
        lookupKey d.name st.deleteFailures = none) →
      ∃ st1,
        cleanupHeapster st =
          ("ListDeployments" ::
            List.replicate (st.deployments.filter (matchesSel heapsterSel)).length
              "DeleteDeployment", Except.ok st1) ∧
        listDeployments st1 heapsterSel = Except.ok [] ∧
        cleanupHeapster st1 = (["ListDeployments"], Except.ok st1)) ∧
    (∀ ds pre d rest e, listDeployments st heapsterSel = Except.ok ds →
      ds = pre ++ d :: rest →
      (∀ x ∈ pre, lookupKey x.name st.deleteFailures = none) →
      lookupKey d.name st.deleteFailures = some e → e ≠ Err.notFound →
      (cleanupHeapster st).2 = Except.error e) ∧
    (st.listFailure = none →
      (∀ d ∈ st.deployments, matchesSel heapsterSel d = true →
        lookupKey d.name st.deleteFailures = none ∨
        lookupKey d.name st.deleteFailures = some Err.notFound) →
      ∃ st1, (cleanupHeapster st).2 = Except.ok st1) := by
  refine ⟨fun hlist hdel => ?_, fun ds pre d rest e hls hsplit hpre hd hne => ?_,
    fun hlist hdel => ?_⟩
  · have hls : listDeployments st heapsterSel =
        Except.ok (st.deployments.filter (matchesSel heapsterSel)) := by
      simp [listDeployments, hlist]
    have hno : ∀ d ∈ st.deployments.filter (matchesSel heapsterSel),
        lookupKey d.name st.deleteFailures = none := by
      intro d hdm
      rw [List.mem_filter] at hdm
      exact hdel d hdm.1 hdm.2
    obtain ⟨st1, hrun, hmem, hf, hl, _, _, _⟩ :=
      runDeleteLoop_ok (st.deployments.filter (matchesSel heapsterSel)) st hno
    have hempty : st1.deployments.filter (matchesSel heapsterSel) = [] := by
      rw [List.filter_eq_nil_iff]
      intro x hx
      obtain ⟨hx1, hx2⟩ := hmem x hx
      intro hmatch
      apply hx2
      rw [List.mem_map]
      exact ⟨x, List.mem_filter.mpr ⟨hx1, hmatch⟩, rfl⟩
    have hls1 : listDeployments st1 heapsterSel = Except.ok [] := by
      rw [listDeployments, hl, hlist, hempty]
    refine ⟨st1, ?_, hls1, ?_⟩
    · simp [cleanupHeapster, stepRun, stepBind, hls, hrun]
    · simp [cleanupHeapster, stepRun, stepBind, hls1, runDeleteLoop, stepPure]
  · subst hsplit
    have habort := runDeleteLoop_abort pre d rest st e hpre hd hne
    simp [cleanupHeapster, stepRun, stepBind, hls, habort]
  · have hls : listDeployments st heapsterSel =
        Except.ok (st.deployments.filter (matchesSel heapsterSel)) := by
      simp [listDeployments, hlist]
    have hsw : ∀ d ∈ st.deployments.filter (matchesSel heapsterSel),
        lookupKey d.name st.deleteFailures = none ∨
        lookupKey d.name st.deleteFailures = some Err.notFound := by
      intro d hdm
      rw [List.mem_filter] at hdm
      exact hdel d hdm.1 hdm.2
    obtain ⟨st1, hst1⟩ :=
      runDeleteLoop_swallow (st.deployments.filter (matchesSel heapsterSel)) st hsw
    exact ⟨st1, by simp [cleanupHeapster, stepRun, stepBind, hls, hst1]⟩

/-- A cluster state with exactly one legacy heapster deployment and a
well-behaved remote API. -/
def stHeapster : ClusterState :=
  ⟨[⟨"heapster-v1", [("chart", "heapster-0.1.1"), ("origin", "gardener")]⟩], [], [], [],
   none, none⟩

theorem heapster_cleanup_idempotent_w :
    ∃ st1,
      cleanupHeapster stHeapster =
        (["ListDeployments", "DeleteDeployment"], Except.ok st1) ∧
      listDeployments st1 heapsterSel = Except.ok [] ∧
      cleanupHeapster st1 = (["ListDeployments"], Except.ok st1) := by
  have h := (heapster_cleanup_idempotent stHeapster).1 rfl
    (by
      intro d hd hm
      simp only [stHeapster, List.mem_singleton] at hd
      subst hd
      rfl)
  simpa [stHeapster, matchesSel, heapsterSel, lookupKey, List.filter] using h

theorem coreConfigs_eq (b : HybridBotanist) (s1 s2 s3 s4 : Secret)
    (h1 : lookupKey "kube-proxy" b.Secrets = some s1)
    (h2 : lookupKey "ca-metrics-server" b.Secrets = some s2)
    (h3 : lookupKey "metrics-server" b.Secrets = some s3)
    (h4 : lookupKey "vpn-seed-tlsauth" b.Secrets = some s4) :
    coreConfigs b = Except.ok
      ⟨globalCfg b, calicoCfg b, kubeDNSCfg b, kubeProxyCfg b s1.data,
       metricsServerCfg s2.data s3.data, vpnShootCfg b s4.data, []⟩ := by
  simp only [coreConfigs, derefSecretData, h1, h2, h3, h4]
  rfl

/-- The five secret names whose data `generateCoreAddonsChart`
dereferences unconditionally. -/
def coreSecretNames : List String :=
  ["kube-proxy", "vpn-seed-tlsauth", "ca-metrics-server", "metrics-server", "vpn-shoot"]

def coreSecretsPresent (b : HybridBotanist) : Bool :=
  coreSecretNames.all (fun n => (lookupKey n b.Secrets).isSome)

theorem generateCore_error_cases (b : HybridBotanist) (st : ClusterState) (c : CoreConfigs)
    (hc : coreConfigs b = Except.ok c) (e : Err)
    (he : (generateCoreAddonsChart b st).2 = Except.error e) :
    (∃ n v, e = Err.imageNotFound n v) ∨
    (e = Err.nilPointer ∧ lookupKey "vpn-shoot" b.Secrets = none) ∨
    (∃ m, e = Err.external m) := by
  rcases h1 : InjectImages b c.calico calicoImages with e1 | v1
  · simp only [generateCoreAddonsChart, hc, stepLift, stepRun, stepBind, h1,
      stepBind_error, stepBind_ok, List.nil_append] at he
    simp only [Except.error.injEq] at he
    exact Or.inl (he ▸ InjectImages_error_shape b c.calico calicoImages e1 h1)
  · rcases h2 : InjectImages b c.kubeDNS kubeDNSImages with e2 | v2
    · simp only [generateCoreAddonsChart, hc, stepLift, stepRun, stepBind, h1, h2,
        stepBind_error, stepBind_ok, List.nil_append] at he
      simp only [Except.error.injEq] at he
      exact Or.inl (he ▸ InjectImages_error_shape b c.kubeDNS kubeDNSImages e2 h2)
    · rcases h3 : InjectImages b c.kubeProxy kubeProxyImages with e3 | v3
      · simp only [generateCoreAddonsChart, hc, stepLift, stepRun, stepBind, h1, h2, h3,
          stepBind_error, stepBind_ok, List.nil_append] at he
        simp only [Except.error.injEq] at he
        exact Or.inl (he ▸ InjectImages_error_shape b c.kubeProxy kubeProxyImages e3 h3)
      · rcases h4 : InjectImages b c.metricsServer metricsServerImages with e4 | v4
        · simp only [generateCoreAddonsChart, hc, stepLift, stepRun, stepBind, h1, h2, h3, h4,
            stepBind_error, stepBind_ok, List.nil_append] at he
          simp only [Except.error.injEq] at he
          exact Or.inl (he ▸ InjectImages_error_shape b c.metricsServer metricsServerImages e4 h4)
        · rcases h5 : InjectImages b c.vpnShoot vpnShootImages with e5 | v5
          · simp only [generateCoreAddonsChart, hc, stepLift, stepRun, stepBind,
              h1, h2, h3, h4, h5, stepBind_error, stepBind_ok, List.nil_append] at he
            simp only [Except.error.injEq] at he
            exact Or.inl (he ▸ InjectImages_error_shape b c.vpnShoot vpnShootImages e5 h5)
          · rcases h6 : InjectImages b c.nodeExporter nodeExporterImages with e6 | v6
            · simp only [generateCoreAddonsChart, hc, stepLift, stepRun, stepBind,
                h1, h2, h3, h4, h5, h6, stepBind_error, stepBind_ok, List.nil_append] at he
              simp only [Except.error.injEq] at he
              exact Or.inl
                (he ▸ InjectImages_error_shape b c.nodeExporter nodeExporterImages e6 h6)
            · rcases h7 : derefSecretData b "vpn-shoot" with e7 | d7
              · have h7s : e7 = Err.nilPointer ∧ lookupKey "vpn-shoot" b.Secrets = none := by
                  rcases hl : lookupKey "vpn-shoot" b.Secrets with _ | s
                  · rw [derefSecretData, hl] at h7
                    simp only [Except.error.injEq] at h7
                    exact ⟨h7.symm, rfl⟩
                  · rw [derefSecretData, hl] at h7
                    simp at h7
                simp only [generateCoreAddonsChart, hc, stepLift, stepRun, stepBind,
                  h1, h2, h3, h4, h5, h6, h7, stepBind_error, stepBind_ok,
                  List.nil_append] at he
                simp only [Except.error.injEq] at he
                exact Or.inr (Or.inl (he ▸ h7s))
              · rcases h8 : st.createSecretFailure with _ | m
                · rcases h9 : b.renderFailure with _ | m2
                  · simp [generateCoreAddonsChart, hc, stepLift, stepRun, stepBind,
                      h1, h2, h3, h4, h5, h6, h7, createSecret, h8, render, h9,
                      stepPure] at he
                  · simp only [generateCoreAddonsChart, hc, stepLift, stepRun, stepBind,
                      h1, h2, h3, h4, h5, h6, h7, createSecret, h8, render, h9, stepPure,
                      stepBind_error, stepBind_ok, List.nil_append] at he
                    simp only [Except.error.injEq] at he
                    exact Or.inr (Or.inr ⟨m2, he.symm⟩)
                · simp only [generateCoreAddonsChart, hc, stepLift, stepRun, stepBind,
                    h1, h2, h3, h4, h5, h6, h7, createSecret, h8,
                    stepBind_error, stepBind_ok, List.nil_append] at he
                  simp only [Except.error.injEq] at he
                  exact Or.inr (Or.inr ⟨m, he.symm⟩)

/-- C10: The secrets kube-proxy, vpn-seed-tlsauth, ca-metrics-server,
metrics-server and vpn-shoot are dereferenced unconditionally by
`generateCoreAddonsChart`: when all five are present in the secret bundle
the configuration composition succeeds and no nil-pointer (missing-entry)
access occurs anywhere in the function, whatever the optional
Diffie-Hellman secret, the kube-proxy feature gates or the remote
behaviours do; conversely, a bundle missing kube-proxy makes the very
first dereference fail. -/
theorem core_secret_presence (b : HybridBotanist) (st : ClusterState) :
    (coreSecretsPresent b = true →
      (∃ c, coreConfigs b = Except.ok c) ∧
      (generateCoreAddonsChart b st).2 ≠ Except.error Err.nilPointer) ∧
    (lookupKey "kube-proxy" b.Secrets = none →
      (generateCoreAddonsChart b st).2 = Except.error Err.nilPointer) := by
  constructor
  · intro hpres
    simp only [coreSecretsPresent, coreSecretNames, List.all_cons, List.all_nil,
      Bool.and_eq_true, Bool.and_true] at hpres
    obtain ⟨hp1, hp2, hp3, hp4, hp5⟩ := hpres
    obtain ⟨s1, hs1⟩ := Option.isSome_iff_exists.mp hp1
    obtain ⟨s4, hs4⟩ := Option.isSome_iff_exists.mp hp2
    obtain ⟨s2, hs2⟩ := Option.isSome_iff_exists.mp hp3
    obtain ⟨s3, hs3⟩ := Option.isSome_iff_exists.mp hp4
    obtain ⟨s5, hs5⟩ := Option.isSome_iff_exists.mp hp5
    have hc := coreConfigs_eq b s1 s2 s3 s4 hs1 hs2 hs3 hs4
    refine ⟨⟨_, hc⟩, fun hcontra => ?_⟩
    rcases generateCore_error_cases b st _ hc Err.nilPointer hcontra with
      ⟨n, v, hnv⟩ | ⟨_, hnone⟩ | ⟨m, hm⟩
    · exact Err.noConfusion hnv
    · rw [hs5] at hnone
      exact Option.noConfusion hnone
    · exact Err.noConfusion hm
  · intro hmiss
    have hcc : coreConfigs b = Except.error Err.nilPointer := by
      simp only [coreConfigs, derefSecretData, hmiss]
      rfl
    simp [generateCoreAddonsChart, stepLift, stepBind, hcc]

/-- A botanist with all five core secrets present and a well-behaved
environment, and a variant missing the kube-proxy secret. -/
def secretsDemo : List (String × Secret) :=
  [("kube-proxy", ⟨[("kubeconfig", "kcfg")]⟩),
   ("vpn-shoot", ⟨[("key", "vpnshootdata")]⟩),
   ("vpn-seed-tlsauth", ⟨[("vpn.tlsauth", "tlsauthkey")]⟩),
   ("ca-metrics-server", ⟨[("ca.crt", "cacert")]⟩),
   ("metrics-server", ⟨[("tls.crt", "servercert")]⟩)]

def botFull : HybridBotanist :=
  ⟨⟨"10.0.0.0/16", "10.1.0.0/16", "10.2.0.0/16", "alicloud", none, false, [], false⟩,
   secretsDemo,
   [("kube-proxy", "cs-kp"), ("vpn-shoot", "cs-vs")],
   "1.11.0", fun n v => some (n ++ ":" ++ v),
   Except.ok [], Except.ok [], Except.ok [], Except.ok [], Except.ok [],
   Except.ok [], Except.ok [], Except.ok [], none⟩

def botNoKubeProxy : HybridBotanist :=
  { botFull with Secrets := secretsDemo.filter (fun p => p.1 != "kube-proxy") }

def stClean : ClusterState := ⟨[], [], [], [], none, none⟩

theorem core_secret_presence_w :
    ((∃ c, coreConfigs botFull = Except.ok c) ∧
      (generateCoreAddonsChart botFull stClean).2 ≠ Except.error Err.nilPointer) ∧
    (generateCoreAddonsChart botNoKubeProxy stClean).2 = Except.error Err.nilPointer :=
  ⟨(core_secret_presence botFull stClean).1 rfl,
   (core_secret_presence botNoKubeProxy stClean).2 rfl⟩

theorem derefSecretData_ok (b : HybridBotanist) (n : String) (d : List (String × String))
    (h : derefSecretData b n = Except.ok d) :
    ∃ s, lookupKey n b.Secrets = some s ∧ d = s.data := by
  rcases hl : lookupKey n b.Secrets with _ | s
  · rw [derefSecretData, hl] at h
    simp at h
  · rw [derefSecretData, hl] at h
    simp only [Except.ok.injEq] at h
    exact ⟨s, rfl, h.symm⟩

/-- C9: Generating the core addon chart is not a pure render: every
successful run has, before rendering, created (or force-updated) the
`vpn-shoot` secret in the cluster's secret store from the vpn-shoot
bundle secret's data, the creation appearing in the invocation trace; and
when the remote create is set to fail, no run of the function can
succeed. -/
theorem core_chart_creates_vpn_secret (b : HybridBotanist) (st : ClusterState) :
    (∀ t st1 chart, generateCoreAddonsChart b st = (t, Except.ok (st1, chart)) →
      (∃ s, lookupKey "vpn-shoot" b.Secrets = some s ∧
        lookupKey "vpn-shoot" st1.secretsStore = some s.data) ∧
      "CreateSecret(vpn-shoot)" ∈ t) ∧
    (∀ m, st.createSecretFailure = some m →
      ∀ x, (generateCoreAddonsChart b st).2 ≠ Except.ok x) := by
  constructor
  · intro t st1 chart h
    rcases hc : coreConfigs b with ec | c
    · simp [generateCoreAddonsChart, stepLift, stepBind, hc] at h
    rcases h1 : InjectImages b c.calico calicoImages with e1 | v1
    · simp [generateCoreAddonsChart, stepLift, stepRun, stepBind, hc, h1] at h
    rcases h2 : InjectImages b c.kubeDNS kubeDNSImages with e2 | v2
    · simp [generateCoreAddonsChart, stepLift, stepRun, stepBind, hc, h1, h2] at h
    rcases h3 : InjectImages b c.kubeProxy kubeProxyImages with e3 | v3
    · simp [generateCoreAddonsChart, stepLift, stepRun, stepBind, hc, h1, h2, h3] at h
    rcases h4 : InjectImages b c.metricsServer metricsServerImages with e4 | v4
    · simp [generateCoreAddonsChart, stepLift, stepRun, stepBind, hc, h1, h2, h3, h4] at h
    rcases h5 : InjectImages b c.vpnShoot vpnShootImages with e5 | v5
    · simp [generateCoreAddonsChart, stepLift, stepRun, stepBind, hc, h1, h2, h3, h4, h5] at h
    rcases h6 : InjectImages b c.nodeExporter nodeExporterImages with e6 | v6
    · simp [generateCoreAddonsChart, stepLift, stepRun, stepBind,
        hc, h1, h2, h3, h4, h5, h6] at h
    rcases h7 : derefSecretData b "vpn-shoot" with e7 | d7
    · simp [generateCoreAddonsChart, stepLift, stepRun, stepBind,
        hc, h1, h2, h3, h4, h5, h6, h7] at h
    rcases h8 : st.createSecretFailure with _ | m
    · rcases h9 : b.renderFailure with _ | m2
      · simp only [generateCoreAddonsChart, stepLift, stepRun, stepBind,
          hc, h1, h2, h3, h4, h5, h6, h7, createSecret, h8, render, h9, stepPure,
          stepBind_error, stepBind_ok, List.nil_append, List.append_nil,
          Prod.mk.injEq, Except.ok.injEq] at h
        obtain ⟨ht, hst1, hchart⟩ := h
        obtain ⟨s, hs, hd⟩ := derefSecretData_ok b "vpn-shoot" d7 h7
        refine ⟨⟨s, hs, ?_⟩, ?_⟩
        · rw [← hst1]
          subst hd
          exact lookupKey_setEntry_self st.secretsStore "vpn-shoot" s.data
        · rw [← ht]
          simp
      · simp [generateCoreAddonsChart, stepLift, stepRun, stepBind,
          hc, h1, h2, h3, h4, h5, h6, h7, createSecret, h8, render, h9] at h
    · simp [generateCoreAddonsChart, stepLift, stepRun, stepBind,
        hc, h1, h2, h3, h4, h5, h6, h7, createSecret, h8] at h
  · intro m hm x
    rcases hc : coreConfigs b with ec | c
    · simp [generateCoreAddonsChart, stepLift, stepBind, hc]
    rcases h1 : InjectImages b c.calico calicoImages with e1 | v1
    · simp [generateCoreAddonsChart, stepLift, stepRun, stepBind, hc, h1]
    rcases h2 : InjectImages b c.kubeDNS kubeDNSImages with e2 | v2
    · simp [generateCoreAddonsChart, stepLift, stepRun, stepBind, hc, h1, h2]
    rcases h3 : InjectImages b c.kubeProxy kubeProxyImages with e3 | v3
    · simp [generateCoreAddonsChart, stepLift, stepRun, stepBind, hc, h1, h2, h3]
    rcases h4 : InjectImages b c.metricsServer metricsServerImages with e4 | v4
    · simp [generateCoreAddonsChart, stepLift, stepRun, stepBind, hc, h1, h2, h3, h4]
    rcases h5 : InjectImages b c.vpnShoot vpnShootImages with e5 | v5
    · simp [generateCoreAddonsChart, stepLift, stepRun, stepBind, hc, h1, h2, h3, h4, h5]
    rcases h6 : InjectImages b c.nodeExporter nodeExporterImages with e6 | v6
    · simp [generateCoreAddonsChart, stepLift, stepRun, stepBind, hc, h1, h2, h3, h4, h5, h6]
    rcases h7 : derefSecretData b "vpn-shoot" with e7 | d7
    · simp [generateCoreAddonsChart, stepLift, stepRun, stepBind,
        hc, h1, h2, h3, h4, h5, h6, h7]
    · simp [generateCoreAddonsChart, stepLift, stepRun, stepBind,
        hc, h1, h2, h3, h4, h5, h6, h7, createSecret, hm]

/-- A cluster state whose remote secret creation is set to fail. -/
def stCreateFail : ClusterState := ⟨[], [], [], [], some "boom", none⟩

theorem core_chart_creates_vpn_secret_w :
    ∀ x, (generateCoreAddonsChart botFull stCreateFail).2 ≠ Except.ok x :=
  (core_chart_creates_vpn_secret botFull stCreateFail).2 "boom" rfl

/-- The restart-annotation value of an addon configuration: the entry of
the `podAnnotations` map under the given checksum key. -/
def restartAnn (cfg : Cfg) (key : String) : Option Val :=
  match lookupKey "podAnnotations" cfg with
  | some (Val.vmap m) => lookupKey key m
  | _ => none

theorem restartAnn_kubeProxyCfg (b : HybridBotanist) (d : List (String × String)) :
    restartAnn (kubeProxyCfg b d) "checksum/secret-kube-proxy" =
      some (Val.vstr (checkSumOf b "kube-proxy")) := by
  rcases h : b.Shoot.kubeProxyConf with _ | fg
  · simp [kubeProxyCfg, h, restartAnn, lookupKey]
  · simp [kubeProxyCfg, h, restartAnn, lookupKey]

theorem restartAnn_vpnShootCfg (b : HybridBotanist) (d : List (String × String)) :
    restartAnn (vpnShootCfg b d) "checksum/secret-vpn-shoot" =
      some (Val.vstr (checkSumOf b "vpn-shoot")) := by
  rcases h : lookupKey gardenRoleOpenVPNDiffieHellman b.Secrets with _ | dh
  · simp [vpnShootCfg, h, restartAnn, lookupKey]
  · simp [vpnShootCfg, h, restartAnn, lookupKey]

/-- C6: Each secret-dependent addon configuration embeds that secret's
checksum in its pod-annotation field (`checksum/secret-kube-proxy` from
the kube-proxy checksum, `checksum/secret-vpn-shoot` from the vpn-shoot
checksum); for any two runs whose secret bundles differ only in one of
these secrets' content (with the checksum maps computed from the bundles
and the hash separating the two contents), that secret's checksum and the
corresponding addon's restart-annotation value differ between the runs,
while the configurations of the unrelated addons are identical. -/
theorem checksum_propagation (b1 b2 : HybridBotanist)
    (hash : List (String × String) → String) (chg : String) (d1 d2 : Secret)
    (hchg : chg = "kube-proxy" ∨ chg = "vpn-shoot")
    (hShoot : b2.Shoot = b1.Shoot)
    (hSec1 : lookupKey chg b1.Secrets = some d1)
    (hSec2 : b2.Secrets = setEntry b1.Secrets chg d2)
    (hCS1 : b1.CheckSums = computeCheckSums hash b1.Secrets)
    (hCS2 : b2.CheckSums = computeCheckSums hash b2.Secrets)
    (hdiff : hash d1.data ≠ hash d2.data)
    (hkp : (lookupKey "kube-proxy" b1.Secrets).isSome = true)
    (hca : (lookupKey "ca-metrics-server" b1.Secrets).isSome = true)
    (hms : (lookupKey "metrics-server" b1.Secrets).isSome = true)
    (htls : (lookupKey "vpn-seed-tlsauth" b1.Secrets).isSome = true) :
    (∀ (b : HybridBotanist) (d : List (String × String)),
      restartAnn (kubeProxyCfg b d) "checksum/secret-kube-proxy" =
        some (Val.vstr (checkSumOf b "kube-proxy"))) ∧
    (∀ (b : HybridBotanist) (d : List (String × String)),
      restartAnn (vpnShootCfg b d) "checksum/secret-vpn-shoot" =
        some (Val.vstr (checkSumOf b "vpn-shoot"))) ∧
    checkSumOf b1 chg ≠ checkSumOf b2 chg ∧
    ∃ c1 c2, coreConfigs b1 = Except.ok c1 ∧ coreConfigs b2 = Except.ok c2 ∧
      (chg = "kube-proxy" →
        restartAnn c1.kubeProxy "checksum/secret-kube-proxy" =
          some (Val.vstr (hash d1.data)) ∧
        restartAnn c2.kubeProxy "checksum/secret-kube-proxy" =
          some (Val.vstr (hash d2.data)) ∧
        c1.vpnShoot = c2.vpnShoot ∧ c1.calico = c2.calico ∧ c1.kubeDNS = c2.kubeDNS ∧
        c1.metricsServer = c2.metricsServer ∧ c1.global = c2.global ∧
        c1.nodeExporter = c2.nodeExporter) ∧
      (chg = "vpn-shoot" →
        restartAnn c1.vpnShoot "checksum/secret-vpn-shoot" =
          some (Val.vstr (hash d1.data)) ∧
        restartAnn c2.vpnShoot "checksum/secret-vpn-shoot" =
          some (Val.vstr (hash d2.data)) ∧
        c1.kubeProxy = c2.kubeProxy ∧ c1.calico = c2.calico ∧ c1.kubeDNS = c2.kubeDNS ∧
        c1.metricsServer = c2.metricsServer ∧ c1.global = c2.global ∧
        c1.nodeExporter = c2.nodeExporter) := by
  obtain ⟨s1, hs1⟩ := Option.isSome_iff_exists.mp hkp
  obtain ⟨s2, hs2⟩ := Option.isSome_iff_exists.mp hca
  obtain ⟨s3, hs3⟩ := Option.isSome_iff_exists.mp hms
  obtain ⟨s4, hs4⟩ := Option.isSome_iff_exists.mp htls
  have hSec2chg : lookupKey chg b2.Secrets = some d2 := by
    rw [hSec2]
    exact lookupKey_setEntry_self b1.Secrets chg d2
  have hpres : ∀ k, k ≠ chg → lookupKey k b2.Secrets = lookupKey k b1.Secrets := by
    intro k hk
    rw [hSec2]
    exact lookupKey_setEntry_other b1.Secrets chg k d2 hk
  have hcs1chg : checkSumOf b1 chg = hash d1.data := by
    rw [checkSumOf, hCS1, lookupKey_computeCheckSums, hSec1]
    rfl
  have hcs2chg : checkSumOf b2 chg = hash d2.data := by
    rw [checkSumOf, hCS2, lookupKey_computeCheckSums, hSec2chg]
    rfl
  have hcsother : ∀ k, k ≠ chg → checkSumOf b2 k = checkSumOf b1 k := by
    intro k hk
    rw [checkSumOf, checkSumOf, hCS1, hCS2, lookupKey_computeCheckSums,
      lookupKey_computeCheckSums, hpres k hk]
  refine ⟨restartAnn_kubeProxyCfg, restartAnn_vpnShootCfg,
    by rw [hcs1chg, hcs2chg]; exact hdiff, ?_⟩
  rcases hchg with hckp | hcvs
  · subst hckp
    have hc1 := coreConfigs_eq b1 d1 s2 s3 s4 hSec1 hs2 hs3 hs4
    have hc2 := coreConfigs_eq b2 d2 s2 s3 s4 hSec2chg
      (by rw [hpres _ (by decide)]; exact hs2)
      (by rw [hpres _ (by decide)]; exact hs3)
      (by rw [hpres _ (by decide)]; exact hs4)
    refine ⟨_, _, hc1, hc2, fun _ => ⟨?_, ?_, ?_, ?_, ?_, ?_, ?_, ?_⟩,
      fun hc => absurd hc (by decide)⟩
    · rw [restartAnn_kubeProxyCfg, hcs1chg]
    · rw [restartAnn_kubeProxyCfg, hcs2chg]
    · show vpnShootCfg b1 s4.data = vpnShootCfg b2 s4.data
      have hdh : lookupKey gardenRoleOpenVPNDiffieHellman b2.Secrets =
          lookupKey gardenRoleOpenVPNDiffieHellman b1.Secrets :=
        hpres _ (by decide)
      have hvs : checkSumOf b2 "vpn-shoot" = checkSumOf b1 "vpn-shoot" :=
        hcsother _ (by decide)
      simp only [vpnShootCfg, hShoot, hdh, hvs]
    · show calicoCfg b1 = calicoCfg b2
      simp only [calicoCfg, hShoot]
    · show kubeDNSCfg b1 = kubeDNSCfg b2
      simp only [kubeDNSCfg, hShoot]
    · rfl
    · show globalCfg b1 = globalCfg b2
      simp only [globalCfg, hShoot]
    · rfl
  · subst hcvs
    have hc1 := coreConfigs_eq b1 s1 s2 s3 s4 hs1 hs2 hs3 hs4
    have hc2 := coreConfigs_eq b2 s1 s2 s3 s4
      (by rw [hpres _ (by decide)]; exact hs1)
      (by rw [hpres _ (by decide)]; exact hs2)
      (by rw [hpres _ (by decide)]; exact hs3)
      (by rw [hpres _ (by decide)]; exact hs4)
    refine ⟨_, _, hc1, hc2, fun hc => absurd hc (by decide),
      fun _ => ⟨?_, ?_, ?_, ?_, ?_, ?_, ?_, ?_⟩⟩
    · rw [restartAnn_vpnShootCfg, hcs1chg]
    · rw [restartAnn_vpnShootCfg, hcs2chg]
    · show kubeProxyCfg b1 s1.data = kubeProxyCfg b2 s1.data
      have hkpcs : checkSumOf b2 "kube-proxy" = checkSumOf b1 "kube-proxy" :=
        hcsother _ (by decide)
      simp only [kubeProxyCfg, hShoot, hkpcs]
    · show calicoCfg b1 = calicoCfg b2
      simp only [calicoCfg, hShoot]
    · show kubeDNSCfg b1 = kubeDNSCfg b2
      simp only [kubeDNSCfg, hShoot]
    · rfl
    · show globalCfg b1 = globalCfg b2
      simp only [globalCfg, hShoot]
    · rfl

/-- A deterministic, content-separating demonstration hash. -/
def hashDemo (d : List (String × String)) : String :=
  String.join (d.map (fun p => p.1 ++ "=" ++ p.2 ++ ";"))

/-- The altered vpn-shoot secret for the checksum-propagation witness. -/
def secVpnAltered : Secret := ⟨[("key", "vpnshootdata2")]⟩

def botC6a : HybridBotanist :=
  ⟨⟨"10.0.0.0/16", "10.1.0.0/16", "10.2.0.0/16", "alicloud", none, false, [], false⟩,
   secretsDemo, computeCheckSums hashDemo secretsDemo, "1.11.0",
   fun n v => some (n ++ ":" ++ v),
   Except.ok [], Except.ok [], Except.ok [], Except.ok [], Except.ok [],
   Except.ok [], Except.ok [], Except.ok [], none⟩

def botC6c : HybridBotanist :=
  { botC6a with
    Secrets := setEntry secretsDemo "vpn-shoot" secVpnAltered,
    CheckSums := computeCheckSums hashDemo (setEntry secretsDemo "vpn-shoot" secVpnAltered) }

theorem checksum_propagation_w :
    (∀ (b : HybridBotanist) (d : List (String × String)),
      restartAnn (kubeProxyCfg b d) "checksum/secret-kube-proxy" =
        some (Val.vstr (checkSumOf b "kube-proxy"))) ∧
    (∀ (b : HybridBotanist) (d : List (String × String)),
      restartAnn (vpnShootCfg b d) "checksum/secret-vpn-shoot" =
        some (Val.vstr (checkSumOf b "vpn-shoot"))) ∧
    checkSumOf botC6a "vpn-shoot" ≠ checkSumOf botC6c "vpn-shoot" ∧
    ∃ c1 c2, coreConfigs botC6a = Except.ok c1 ∧ coreConfigs botC6c = Except.ok c2 ∧
      ("vpn-shoot" = "kube-proxy" →
        restartAnn c1.kubeProxy "checksum/secret-kube-proxy" =
          some (Val.vstr (hashDemo [("key", "vpnshootdata")])) ∧
        restartAnn c2.kubeProxy "checksum/secret-kube-proxy" =
          some (Val.vstr (hashDemo [("key", "vpnshootdata2")])) ∧
        c1.vpnShoot = c2.vpnShoot ∧ c1.calico = c2.calico ∧ c1.kubeDNS = c2.kubeDNS ∧
        c1.metricsServer = c2.metricsServer ∧ c1.global = c2.global ∧
        c1.nodeExporter = c2.nodeExporter) ∧
      ("vpn-shoot" = "vpn-shoot" →
        restartAnn c1.vpnShoot "checksum/secret-vpn-shoot" =
          some (Val.vstr (hashDemo [("key", "vpnshootdata")])) ∧
        restartAnn c2.vpnShoot "checksum/secret-vpn-shoot" =
          some (Val.vstr (hashDemo [("key", "vpnshootdata2")])) ∧
        c1.kubeProxy = c2.kubeProxy ∧ c1.calico = c2.calico ∧ c1.kubeDNS = c2.kubeDNS ∧
        c1.metricsServer = c2.metricsServer ∧ c1.global = c2.global ∧
        c1.nodeExporter = c2.nodeExporter) :=
  checksum_propagation botC6a botC6c hashDemo "vpn-shoot" ⟨[("key", "vpnshootdata")]⟩
    secVpnAltered (Or.inr rfl) rfl rfl rfl rfl rfl (by decide) rfl rfl rfl rfl

/-- All logical image names required by the six core `InjectImages`
calls resolve at the cluster version. -/
def coreImagesOk (b : HybridBotanist) : Bool :=
  calicoImages.all (fun p => (b.resolveImage p.2 b.version).isSome) &&
  kubeDNSImages.all (fun p => (b.resolveImage p.2 b.version).isSome) &&
  kubeProxyImages.all (fun p => (b.resolveImage p.2 b.version).isSome) &&
  metricsServerImages.all (fun p => (b.resolveImage p.2 b.version).isSome) &&
  vpnShootImages.all (fun p => (b.resolveImage p.2 b.version).isSome) &&
  nodeExporterImages.all (fun p => (b.resolveImage p.2 b.version).isSome)

/-- C3: With the required proxy, VPN and metrics credentials present (and
a well-behaved environment), the rendered core bundle contains
configuration sections for kube-dns, kube-proxy, calico, vpn-shoot,
metrics-server and (under monitoring) node-exporter, and the vpn-shoot
section carries the pod, service and node network ranges together with a
populated tlsAuth field sourced from the VPN TLS-auth secret. -/
theorem core_bundle_contents (b : HybridBotanist) (st : ClusterState) (s4 : Secret)
    (hpres : coreSecretsPresent b = true)
    (hs4 : lookupKey "vpn-seed-tlsauth" b.Secrets = some s4)
    (hauth : dataVal s4.data "vpn.tlsauth" ≠ "")
    (himg : coreImagesOk b = true)
    (hcs : st.createSecretFailure = none)
    (hrd : b.renderFailure = none) :
    ∃ tr st1 chart,
      generateCoreAddonsChart b st = (tr, Except.ok (st1, chart)) ∧
      (lookupKey "kube-dns" chart.values).isSome = true ∧
      (lookupKey "kube-proxy" chart.values).isSome = true ∧
      (lookupKey "calico" chart.values).isSome = true ∧
      (lookupKey "metrics-server" chart.values).isSome = true ∧
      (∃ mv, lookupKey "monitoring" chart.values = some (Val.vmap mv) ∧
        (lookupKey "node-exporter" mv).isSome = true) ∧
      (∃ vm, lookupKey "vpn-shoot" chart.values = some (Val.vmap vm) ∧
        lookupKey "podNetwork" vm = some (Val.vstr b.Shoot.podNetwork) ∧
        lookupKey "serviceNetwork" vm = some (Val.vstr b.Shoot.serviceNetwork) ∧
        lookupKey "nodeNetwork" vm = some (Val.vstr b.Shoot.nodeNetwork) ∧
        lookupKey "tlsAuth" vm = some (Val.vstr (dataVal s4.data "vpn.tlsauth")) ∧
        dataVal s4.data "vpn.tlsauth" ≠ "") := by
  simp only [coreSecretsPresent, coreSecretNames, List.all_cons, List.all_nil,
    Bool.and_eq_true, Bool.and_true] at hpres
  obtain ⟨hp1, hp2, hp3, hp4, hp5⟩ := hpres
  obtain ⟨s1, hs1⟩ := Option.isSome_iff_exists.mp hp1
  obtain ⟨s2, hs2⟩ := Option.isSome_iff_exists.mp hp3
  obtain ⟨s3, hs3⟩ := Option.isSome_iff_exists.mp hp4
  obtain ⟨s5, hs5⟩ := Option.isSome_iff_exists.mp hp5
  have hc := coreConfigs_eq b s1 s2 s3 s4 hs1 hs2 hs3 hs4
  simp only [coreImagesOk, Bool.and_eq_true] at himg
  obtain ⟨⟨⟨⟨⟨hi1, hi2⟩, hi3⟩, hi4⟩, hi5⟩, hi6⟩ := himg
  obtain ⟨m1, hI1⟩ := InjectImages_ok_of_all b (calicoCfg b) calicoImages hi1
  obtain ⟨m2, hI2⟩ := InjectImages_ok_of_all b (kubeDNSCfg b) kubeDNSImages hi2
  obtain ⟨m3, hI3⟩ := InjectImages_ok_of_all b (kubeProxyCfg b s1.data) kubeProxyImages hi3
  obtain ⟨m4, hI4⟩ :=
    InjectImages_ok_of_all b (metricsServerCfg s2.data s3.data) metricsServerImages hi4
  obtain ⟨m5, hI5⟩ := InjectImages_ok_of_all b (vpnShootCfg b s4.data) vpnShootImages hi5
  obtain ⟨m6, hI6⟩ := InjectImages_ok_of_all b ([] : Cfg) nodeExporterImages hi6
  have hd5 : derefSecretData b "vpn-shoot" = Except.ok s5.data := by
    rw [derefSecretData, hs5]
  have hgen : generateCoreAddonsChart b st =
      (["InjectImages(calico)", "InjectImages(kube-dns)", "InjectImages(kube-proxy)",
        "InjectImages(metrics-server)", "InjectImages(vpn-shoot)",
        "InjectImages(node-exporter)", "CreateSecret(vpn-shoot)", "Render(shoot-core)"],
       Except.ok
         ({ st with secretsStore := setEntry st.secretsStore "vpn-shoot" s5.data },
          ⟨chartPath "shoot-core", "shoot-core", namespaceSystem,
           [("global", Val.vmap (globalCfg b)),
            ("kube-dns", Val.vmap (setEntry (kubeDNSCfg b) "images" (Val.vmap m2))),
            ("kube-proxy", Val.vmap (setEntry (kubeProxyCfg b s1.data) "images" (Val.vmap m3))),
            ("vpn-shoot", Val.vmap (setEntry (vpnShootCfg b s4.data) "images" (Val.vmap m5))),
            ("calico", Val.vmap (setEntry (calicoCfg b) "images" (Val.vmap m1))),
            ("metrics-server",
              Val.vmap (setEntry (metricsServerCfg s2.data s3.data) "images" (Val.vmap m4))),
            ("monitoring",
              Val.vmap [("node-exporter",
                Val.vmap (setEntry ([] : Cfg) "images" (Val.vmap m6)))])]⟩)) := by
    simp [generateCoreAddonsChart, stepLift, stepRun, stepBind, hc, hI1, hI2, hI3, hI4,
      hI5, hI6, hd5, createSecret, hcs, render, hrd, stepPure]
  refine ⟨_, _, _, hgen, ?_, ?_, ?_, ?_,
    ⟨[("node-exporter", Val.vmap (setEntry ([] : Cfg) "images" (Val.vmap m6)))], ?_, ?_⟩,
    ⟨setEntry (vpnShootCfg b s4.data) "images" (Val.vmap m5), ?_, ?_, ?_, ?_, ?_, hauth⟩⟩
  · simp [lookupKey]
  · simp [lookupKey]
  · simp [lookupKey]
  · simp [lookupKey]
  · simp [lookupKey]
  · simp [lookupKey]
  · simp [lookupKey]
  · rw [lookupKey_setEntry_other _ _ _ _ (by decide)]
    rcases hdh : lookupKey gardenRoleOpenVPNDiffieHellman b.Secrets with _ | dh
    · simp [vpnShootCfg, hdh, lookupKey]
    · simp [vpnShootCfg, hdh, lookupKey]
  · rw [lookupKey_setEntry_other _ _ _ _ (by decide)]
    rcases hdh : lookupKey gardenRoleOpenVPNDiffieHellman b.Secrets with _ | dh
    · simp [vpnShootCfg, hdh, lookupKey]
    · simp [vpnShootCfg, hdh, lookupKey]
  · rw [lookupKey_setEntry_other _ _ _ _ (by decide)]
    rcases hdh : lookupKey gardenRoleOpenVPNDiffieHellman b.Secrets with _ | dh
    · simp [vpnShootCfg, hdh, lookupKey]
    · simp [vpnShootCfg, hdh, lookupKey]
  · rw [lookupKey_setEntry_other _ _ _ _ (by decide)]
    rcases hdh : lookupKey gardenRoleOpenVPNDiffieHellman b.Secrets with _ | dh
    · simp [vpnShootCfg, hdh, lookupKey]
    · simp [vpnShootCfg, hdh, lookupKey]

theorem core_bundle_contents_w :
    ∃ tr st1 chart,
      generateCoreAddonsChart botFull stClean = (tr, Except.ok (st1, chart)) ∧
      (lookupKey "kube-dns" chart.values).isSome = true ∧
      (lookupKey "kube-proxy" chart.values).isSome = true ∧
      (lookupKey "calico" chart.values).isSome = true ∧
      (lookupKey "metrics-server" chart.values).isSome = true ∧
      (∃ mv, lookupKey "monitoring" chart.values = some (Val.vmap mv) ∧
        (lookupKey "node-exporter" mv).isSome = true) ∧
      (∃ vm, lookupKey "vpn-shoot" chart.values = some (Val.vmap vm) ∧
        lookupKey "podNetwork" vm = some (Val.vstr botFull.Shoot.podNetwork) ∧
        lookupKey "serviceNetwork" vm = some (Val.vstr botFull.Shoot.serviceNetwork) ∧
        lookupKey "nodeNetwork" vm = some (Val.vstr botFull.Shoot.nodeNetwork) ∧
        lookupKey "tlsAuth" vm =
          some (Val.vstr (dataVal [("vpn.tlsauth", "tlsauthkey")] "vpn.tlsauth")) ∧
        dataVal [("vpn.tlsauth", "tlsauthkey")] "vpn.tlsauth" ≠ "") :=
  core_bundle_contents botFull stClean ⟨[("vpn.tlsauth", "tlsauthkey")]⟩
    rfl rfl (by decide) rfl rfl rfl

/-- The first failing entry of a stage-status list, together with its
index: `none` when every stage succeeds. -/
def firstError : List (Except Err Unit) → Option (Nat × Err)
  | [] => none
  | Except.ok _ :: rest => (firstError rest).map (fun p => (p.1 + 1, p.2))
  | Except.error e :: _ => some (0, e)

theorem runDeleteLoop_trace_labels (ds : List Deployment) (st : ClusterState) :
    ∀ s ∈ (runDeleteLoop st ds).1, s = "DeleteDeployment" := by
  induction ds generalizing st with
  | nil =>
    intro s hs
    simp [runDeleteLoop, stepPure] at hs
  | cons d rest ih =>
    intro s hs
    rcases h : deleteDeployment st d.name with e | st1
    · by_cases he : e = Err.notFound
      · rw [runDeleteLoop, h] at hs
        simp only [he, if_pos rfl] at hs
        rcases List.mem_cons.mp hs with h1 | h1
        · exact h1
        · exact ih st s h1
      · rw [runDeleteLoop, h] at hs
        simp only [he, if_neg he] at hs
        rcases List.mem_cons.mp hs with h1 | h1
        · exact h1
        · simp at h1
    · rw [runDeleteLoop, h] at hs
      rcases List.mem_cons.mp hs with h1 | h1
      · exact h1
      · exact ih st1 s h1

theorem optional_firstError_aborts (b : HybridBotanist) (st : ClusterState) (i : Nat) (e : Err)
    (hfe : firstError (optionalStageStatus b st) = some (i, e)) :
    (generateOptionalAddonsChart b st).2 = Except.error e ∧
    (∀ s, s ∈ (generateOptionalAddonsChart b st).1 → s ∈ optionalStageNames.take (i + 1)) := by
  simp only [optionalStageStatus] at hfe
  rcases h0 : b.GenerateClusterAutoscalerConfig with e0 | c0
  · simp only [h0, discardE, firstError, Option.some.injEq, Prod.mk.injEq] at hfe
    obtain ⟨hi, he⟩ := hfe
    subst hi
    subst he
    have hgen : generateOptionalAddonsChart b st =
        (["GenerateClusterAutoscalerConfig"], Except.error e0) := by
      simp [generateOptionalAddonsChart, stepRun, stepBind, h0]
    rw [hgen]
    exact ⟨rfl, by intro s hs; simpa [optionalStageNames] using hs⟩
  rcases h1 : b.GenerateHelmTillerConfig with e1 | c1
  · simp only [h0, h1, discardE, firstError, Option.map, Option.some.injEq,
      Prod.mk.injEq] at hfe
    obtain ⟨hi, he⟩ := hfe
    subst hi
    subst he
    have hgen : generateOptionalAddonsChart b st =
        (["GenerateClusterAutoscalerConfig", "GenerateHelmTillerConfig"],
         Except.error e1) := by
      simp [generateOptionalAddonsChart, stepRun, stepBind, h0, h1]
    rw [hgen]
    exact ⟨rfl, by intro s hs; simpa [optionalStageNames] using hs⟩
  rcases h2 : b.GenerateKubeLegoConfig with e2 | c2
  · simp only [h0, h1, h2, discardE, firstError, Option.map, Option.some.injEq,
      Prod.mk.injEq] at hfe
    obtain ⟨hi, he⟩ := hfe
    subst hi
    subst he
    have hgen : generateOptionalAddonsChart b st =
        (["GenerateClusterAutoscalerConfig", "GenerateHelmTillerConfig",
          "GenerateKubeLegoConfig"], Except.error e2) := by
      simp [generateOptionalAddonsChart, stepRun, stepBind, h0, h1, h2]
    rw [hgen]
    exact ⟨rfl, by intro s hs; simpa [optionalStageNames] using hs⟩
  rcases h3 : b.GenerateKube2IAMConfig with e3 | c3
  · simp only [h0, h1, h2, h3, discardE, firstError, Option.map, Option.some.injEq,
      Prod.mk.injEq] at hfe
    obtain ⟨hi, he⟩ := hfe
    subst hi
    subst he
    have hgen : generateOptionalAddonsChart b st =
        (["GenerateClusterAutoscalerConfig", "GenerateHelmTillerConfig",
          "GenerateKubeLegoConfig", "GenerateKube2IAMConfig"], Except.error e3) := by
      simp [generateOptionalAddonsChart, stepRun, stepBind, h0, h1, h2, h3]
    rw [hgen]
    exact ⟨rfl, by intro s hs; simpa [optionalStageNames] using hs⟩
  rcases h4 : b.GenerateKubernetesDashboardConfig with e4 | c4
  · simp only [h0, h1, h2, h3, h4, discardE, firstError, Option.map, Option.some.injEq,
      Prod.mk.injEq] at hfe
    obtain ⟨hi, he⟩ := hfe
    subst hi
    subst he
    have hgen : generateOptionalAddonsChart b st =
        (["GenerateClusterAutoscalerConfig", "GenerateHelmTillerConfig",
          "GenerateKubeLegoConfig", "GenerateKube2IAMConfig",
          "GenerateKubernetesDashboardConfig"], Except.error e4) := by
      simp [generateOptionalAddonsChart, stepRun, stepBind, h0, h1, h2, h3, h4]
    rw [hgen]
    exact ⟨rfl, by intro s hs; simpa [optionalStageNames] using hs⟩
  rcases h5 : b.GenerateMonocularConfig with e5 | c5
  · simp only [h0, h1, h2, h3, h4, h5, discardE, firstError, Option.map, Option.some.injEq,
      Prod.mk.injEq] at hfe
    obtain ⟨hi, he⟩ := hfe
    subst hi
    subst he
    have hgen : generateOptionalAddonsChart b st =
        (["GenerateClusterAutoscalerConfig", "GenerateHelmTillerConfig",
          "GenerateKubeLegoConfig", "GenerateKube2IAMConfig",
          "GenerateKubernetesDashboardConfig", "GenerateMonocularConfig"],
         Except.error e5) := by
      simp [generateOptionalAddonsChart, stepRun, stepBind, h0, h1, h2, h3, h4, h5]
    rw [hgen]
    exact ⟨rfl, by intro s hs; simpa [optionalStageNames] using hs⟩
  rcases h6 : b.GenerateNginxIngressConfig with e6 | c6
  · simp only [h0, h1, h2, h3, h4, h5, h6, discardE, firstError, Option.map,
      Option.some.injEq, Prod.mk.injEq] at hfe
    obtain ⟨hi, he⟩ := hfe
    subst hi
    subst he
    have hgen : generateOptionalAddonsChart b st =
        (["GenerateClusterAutoscalerConfig", "GenerateHelmTillerConfig",
          "GenerateKubeLegoConfig", "GenerateKube2IAMConfig",
          "GenerateKubernetesDashboardConfig", "GenerateMonocularConfig",
          "GenerateNginxIngressConfig"], Except.error e6) := by
      simp [generateOptionalAddonsChart, stepRun, stepBind, h0, h1, h2, h3, h4, h5, h6]
    rw [hgen]
    exact ⟨rfl, by intro s hs; simpa [optionalStageNames] using hs⟩
  rcases hI7 : InjectImages b c1 helmTillerImages with e7 | v7
  · simp only [h0, h1, h2, h3, h4, h5, h6, hI7, discardE, firstError, Except.bind,
      Option.map, Option.some.injEq, Prod.mk.injEq] at hfe
    obtain ⟨hi, he⟩ := hfe
    subst hi
    subst he
    have hgen : generateOptionalAddonsChart b st =
        (["GenerateClusterAutoscalerConfig", "GenerateHelmTillerConfig",
          "GenerateKubeLegoConfig", "GenerateKube2IAMConfig",
          "GenerateKubernetesDashboardConfig", "GenerateMonocularConfig",
          "GenerateNginxIngressConfig", "InjectImages(helm-tiller)"],
         Except.error e7) := by
      simp [generateOptionalAddonsChart, stepRun, stepBind, h0, h1, h2, h3, h4, h5, h6, hI7]
    rw [hgen]
    exact ⟨rfl, by intro s hs; simpa [optionalStageNames] using hs⟩
  rcases hI8 : InjectImages b c2 kubeLegoImages with e8 | v8
  · simp only [h0, h1, h2, h3, h4, h5, h6, hI7, hI8, discardE, firstError, Except.bind,
      Option.map, Option.some.injEq, Prod.mk.injEq] at hfe
    obtain ⟨hi, he⟩ := hfe
    subst hi
    subst he
    have hgen : generateOptionalAddonsChart b st =
        (["GenerateClusterAutoscalerConfig", "GenerateHelmTillerConfig",
          "GenerateKubeLegoConfig", "GenerateKube2IAMConfig",
          "GenerateKubernetesDashboardConfig", "GenerateMonocularConfig",
          "GenerateNginxIngressConfig", "InjectImages(helm-tiller)",
          "InjectImages(kube-lego)"], Except.error e8) := by
      simp [generateOptionalAddonsChart, stepRun, stepBind,
        h0, h1, h2, h3, h4, h5, h6, hI7, hI8]
    rw [hgen]
    exact ⟨rfl, by intro s hs; simpa [optionalStageNames] using hs⟩
  rcases hI9 : InjectImages b c3 kube2IAMImages with e9 | v9
  · simp only [h0, h1, h2, h3, h4, h5, h6, hI7, hI8, hI9, discardE, firstError, Except.bind,
      Option.map, Option.some.injEq, Prod.mk.injEq] at hfe
    obtain ⟨hi, he⟩ := hfe
    subst hi
    subst he
    have hgen : generateOptionalAddonsChart b st =
        (["GenerateClusterAutoscalerConfig", "GenerateHelmTillerConfig",
          "GenerateKubeLegoConfig", "GenerateKube2IAMConfig",
          "GenerateKubernetesDashboardConfig", "GenerateMonocularConfig",
          "GenerateNginxIngressConfig", "InjectImages(helm-tiller)",
          "InjectImages(kube-lego)", "InjectImages(kube2iam)"], Except.error e9) := by
      simp [generateOptionalAddonsChart, stepRun, stepBind,
        h0, h1, h2, h3, h4, h5, h6, hI7, hI8, hI9]
    rw [hgen]
    exact ⟨rfl, by intro s hs; simpa [optionalStageNames] using hs⟩
  rcases hI10 : InjectImages b c4 kubernetesDashboardImages with e10 | v10
  · simp only [h0, h1, h2, h3, h4, h5, h6, hI7, hI8, hI9, hI10, discardE, firstError,
      Except.bind, Option.map, Option.some.injEq, Prod.mk.injEq] at hfe
    obtain ⟨hi, he⟩ := hfe
    subst hi
    subst he
    have hgen : generateOptionalAddonsChart b st =
        (["GenerateClusterAutoscalerConfig", "GenerateHelmTillerConfig",
          "GenerateKubeLegoConfig", "GenerateKube2IAMConfig",
          "GenerateKubernetesDashboardConfig", "GenerateMonocularConfig",
          "GenerateNginxIngressConfig", "InjectImages(helm-tiller)",
          "InjectImages(kube-lego)", "InjectImages(kube2iam)",
          "InjectImages(kubernetes-dashboard)"], Except.error e10) := by
      simp [generateOptionalAddonsChart, stepRun, stepBind,
        h0, h1, h2, h3, h4, h5, h6, hI7, hI8, hI9, hI10]
    rw [hgen]
    exact ⟨rfl, by intro s hs; simpa [optionalStageNames] using hs⟩
  rcases hI11 : InjectImages b c5 monocularImages with e11 | v11
  · simp only [h0, h1, h2, h3, h4, h5, h6, hI7, hI8, hI9, hI10, hI11, discardE, firstError,
      Except.bind, Option.map, Option.some.injEq, Prod.mk.injEq] at hfe
    obtain ⟨hi, he⟩ := hfe
    subst hi
    subst he
    have hgen : generateOptionalAddonsChart b st =
        (["GenerateClusterAutoscalerConfig", "GenerateHelmTillerConfig",
          "GenerateKubeLegoConfig", "GenerateKube2IAMConfig",
          "GenerateKubernetesDashboardConfig", "GenerateMonocularConfig",
          "GenerateNginxIngressConfig", "InjectImages(helm-tiller)",
          "InjectImages(kube-lego)", "InjectImages(kube2iam)",
          "InjectImages(kubernetes-dashboard)", "InjectImages(monocular)"],
         Except.error e11) := by
      simp [generateOptionalAddonsChart, stepRun, stepBind,
        h0, h1, h2, h3, h4, h5, h6, hI7, hI8, hI9, hI10, hI11]
    rw [hgen]
    exact ⟨rfl, by intro s hs; simpa [optionalStageNames] using hs⟩
  rcases hI12 : InjectImages b (composeNginxIngress b c6) nginxIngressImages with e12 | v12
  · simp only [h0, h1, h2, h3, h4, h5, h6, hI7, hI8, hI9, hI10, hI11, hI12, discardE,
      firstError, Except.bind, Option.map, Option.some.injEq, Prod.mk.injEq] at hfe
    obtain ⟨hi, he⟩ := hfe
    subst hi
    subst he
    have hgen : generateOptionalAddonsChart b st =
        (["GenerateClusterAutoscalerConfig", "GenerateHelmTillerConfig",
          "GenerateKubeLegoConfig", "GenerateKube2IAMConfig",
          "GenerateKubernetesDashboardConfig", "GenerateMonocularConfig",
          "GenerateNginxIngressConfig", "InjectImages(helm-tiller)",
          "InjectImages(kube-lego)", "InjectImages(kube2iam)",
          "InjectImages(kubernetes-dashboard)", "InjectImages(monocular)",
          "InjectImages(nginx-ingress)"], Except.error e12) := by
      simp [generateOptionalAddonsChart, stepRun, stepBind,
        h0, h1, h2, h3, h4, h5, h6, hI7, hI8, hI9, hI10, hI11, hI12]
    rw [hgen]
    exact ⟨rfl, by intro s hs; simpa [optionalStageNames] using hs⟩
  rcases h13 : listDeployments st heapsterSel with e13 | ds
  · simp only [h0, h1, h2, h3, h4, h5, h6, hI7, hI8, hI9, hI10, hI11, hI12, h13, discardE,
      firstError, Except.bind, Option.map, Option.some.injEq, Prod.mk.injEq] at hfe
    obtain ⟨hi, he⟩ := hfe
    subst hi
    subst he
    have hgen : generateOptionalAddonsChart b st =
        (["GenerateClusterAutoscalerConfig", "GenerateHelmTillerConfig",
          "GenerateKubeLegoConfig", "GenerateKube2IAMConfig",
          "GenerateKubernetesDashboardConfig", "GenerateMonocularConfig",
          "GenerateNginxIngressConfig", "InjectImages(helm-tiller)",
          "InjectImages(kube-lego)", "InjectImages(kube2iam)",
          "InjectImages(kubernetes-dashboard)", "InjectImages(monocular)",
          "InjectImages(nginx-ingress)", "ListDeployments"], Except.error e13) := by
      simp [generateOptionalAddonsChart, cleanupHeapster, stepRun, stepBind,
        h0, h1, h2, h3, h4, h5, h6, hI7, hI8, hI9, hI10, hI11, hI12, h13]
    rw [hgen]
    exact ⟨rfl, by intro s hs; simpa [optionalStageNames] using hs⟩
  rcases hlp : runDeleteLoop st ds with ⟨lt, lr⟩
  have hlab : ∀ s ∈ lt, s = "DeleteDeployment" := by
    intro s hs
    exact runDeleteLoop_trace_labels ds st s (by rw [hlp]; exact hs)
  rcases lr with e14 | st14
  · simp only [h0, h1, h2, h3, h4, h5, h6, hI7, hI8, hI9, hI10, hI11, hI12, h13, hlp,
      discardE, firstError, Except.bind, Option.map, Option.some.injEq,
      Prod.mk.injEq] at hfe
    obtain ⟨hi, he⟩ := hfe
    subst hi
    subst he
    have hgen : generateOptionalAddonsChart b st =
        (["GenerateClusterAutoscalerConfig", "GenerateHelmTillerConfig",
          "GenerateKubeLegoConfig", "GenerateKube2IAMConfig",
          "GenerateKubernetesDashboardConfig", "GenerateMonocularConfig",
          "GenerateNginxIngressConfig", "InjectImages(helm-tiller)",
          "InjectImages(kube-lego)", "InjectImages(kube2iam)",
          "InjectImages(kubernetes-dashboard)", "InjectImages(monocular)",
          "InjectImages(nginx-ingress)", "ListDeployments"] ++ lt,
         Except.error e14) := by
      simp [generateOptionalAddonsChart, cleanupHeapster, stepRun, stepBind,
        h0, h1, h2, h3, h4, h5, h6, hI7, hI8, hI9, hI10, hI11, hI12, h13, hlp]
    rw [hgen]
    refine ⟨rfl, ?_⟩
    intro s hs
    rcases List.mem_append.mp hs with h1 | h1
    · simp only [optionalStageNames, List.take]
      simp only [List.mem_cons] at h1 ⊢
      tauto
    · have := hlab s h1
      subst this
      simp [optionalStageNames, List.take]
  rcases h15 : b.renderFailure with _ | m15
  · simp only [h0, h1, h2, h3, h4, h5, h6, hI7, hI8, hI9, hI10, hI11, hI12, h13, hlp, h15,
      discardE, firstError, Except.bind, Option.map] at hfe
    exact Option.noConfusion hfe
  · simp only [h0, h1, h2, h3, h4, h5, h6, hI7, hI8, hI9, hI10, hI11, hI12, h13, hlp, h15,
      discardE, firstError, Except.bind, Option.map, Option.some.injEq,
      Prod.mk.injEq] at hfe
    obtain ⟨hi, he⟩ := hfe
    subst hi
    subst he
    have hgen : (generateOptionalAddonsChart b st).2 =
        Except.error (Err.external m15) ∧
        (generateOptionalAddonsChart b st).1 =
        (["GenerateClusterAutoscalerConfig", "GenerateHelmTillerConfig",
          "GenerateKubeLegoConfig", "GenerateKube2IAMConfig",
          "GenerateKubernetesDashboardConfig", "GenerateMonocularConfig",
          "GenerateNginxIngressConfig", "InjectImages(helm-tiller)",
          "InjectImages(kube-lego)", "InjectImages(kube2iam)",
          "InjectImages(kubernetes-dashboard)", "InjectImages(monocular)",
          "InjectImages(nginx-ingress)", "ListDeployments"] ++ lt ++
          ["Render(shoot-addons)"]) := by
      constructor <;>
        simp [generateOptionalAddonsChart, cleanupHeapster, stepRun, stepBind,
          h0, h1, h2, h3, h4, h5, h6, hI7, hI8, hI9, hI10, hI11, hI12, h13, hlp,
          render, h15]
    refine ⟨hgen.1, ?_⟩
    intro s hs
    rw [hgen.2] at hs
    rcases List.mem_append.mp hs with h1 | h1
    · rcases List.mem_append.mp h1 with h2 | h2
      · simp only [optionalStageNames, List.take]
        simp only [List.mem_cons] at h2 ⊢
        tauto
      · have := hlab s h2
        subst this
        simp [optionalStageNames, List.take]
    · simp only [List.mem_singleton] at h1
      subst h1
      simp [optionalStageNames, List.take]

theorem core_firstError_aborts (b : HybridBotanist) (st : ClusterState) (i : Nat) (e : Err)
    (hfe : firstError (coreStageStatus b st) = some (i, e)) :
    (generateCoreAddonsChart b st).2 = Except.error e ∧
    (∀ s, s ∈ (generateCoreAddonsChart b st).1 → s ∈ coreStageNames.take (i + 1)) := by
  simp only [coreStageStatus] at hfe
  rcases h0 : coreConfigs b with e0 | c
  · simp only [h0, discardE, firstError, Option.some.injEq, Prod.mk.injEq] at hfe
    obtain ⟨hi, he⟩ := hfe
    subst hi
    subst he
    have hgen : generateCoreAddonsChart b st = ([], Except.error e0) := by
      simp [generateCoreAddonsChart, stepLift, stepBind, h0]
    rw [hgen]
    exact ⟨rfl, by intro s hs; simp at hs⟩
  rcases hI1 : InjectImages b c.calico calicoImages with e1 | v1
  · simp only [h0, hI1, discardE, firstError, Except.bind, Option.map, Option.some.injEq,
      Prod.mk.injEq] at hfe
    obtain ⟨hi, he⟩ := hfe
    subst hi
    subst he
    have hgen : generateCoreAddonsChart b st =
        (["InjectImages(calico)"], Except.error e1) := by
      simp [generateCoreAddonsChart, stepLift, stepRun, stepBind, h0, hI1]
    rw [hgen]
    exact ⟨rfl, by intro s hs; simp only [List.mem_cons] at hs; simp [coreStageNames]; tauto⟩
  rcases hI2 : InjectImages b c.kubeDNS kubeDNSImages with e2 | v2
  · simp only [h0, hI1, hI2, discardE, firstError, Except.bind, Option.map,
      Option.some.injEq, Prod.mk.injEq] at hfe
    obtain ⟨hi, he⟩ := hfe
    subst hi
    subst he
    have hgen : generateCoreAddonsChart b st =
        (["InjectImages(calico)", "InjectImages(kube-dns)"], Except.error e2) := by
      simp [generateCoreAddonsChart, stepLift, stepRun, stepBind, h0, hI1, hI2]
    rw [hgen]
    exact ⟨rfl, by intro s hs; simp only [List.mem_cons] at hs; simp [coreStageNames]; tauto⟩
  rcases hI3 : InjectImages b c.kubeProxy kubeProxyImages with e3 | v3
  · simp only [h0, hI1, hI2, hI3, discardE, firstError, Except.bind, Option.map,
      Option.some.injEq, Prod.mk.injEq] at hfe
    obtain ⟨hi, he⟩ := hfe
    subst hi
    subst he
    have hgen : generateCoreAddonsChart b st =
        (["InjectImages(calico)", "InjectImages(kube-dns)", "InjectImages(kube-proxy)"],
         Except.error e3) := by
      simp [generateCoreAddonsChart, stepLift, stepRun, stepBind, h0, hI1, hI2, hI3]
    rw [hgen]
    exact ⟨rfl, by intro s hs; simp only [List.mem_cons] at hs; simp [coreStageNames]; tauto⟩
  rcases hI4 : InjectImages b c.metricsServer metricsServerImages with e4 | v4
  · simp only [h0, hI1, hI2, hI3, hI4, discardE, firstError, Except.bind, Option.map,
      Option.some.injEq, Prod.mk.injEq] at hfe
    obtain ⟨hi, he⟩ := hfe
    subst hi
    subst he
    have hgen : generateCoreAddonsChart b st =
        (["InjectImages(calico)", "InjectImages(kube-dns)", "InjectImages(kube-proxy)",
          "InjectImages(metrics-server)"], Except.error e4) := by
      simp [generateCoreAddonsChart, stepLift, stepRun, stepBind, h0, hI1, hI2, hI3, hI4]
    rw [hgen]
    exact ⟨rfl, by intro s hs; simp only [List.mem_cons] at hs; simp [coreStageNames]; tauto⟩
  rcases hI5 : InjectImages b c.vpnShoot vpnShootImages with e5 | v5
  · simp only [h0, hI1, hI2, hI3, hI4, hI5, discardE, firstError, Except.bind, Option.map,
      Option.some.injEq, Prod.mk.injEq] at hfe
    obtain ⟨hi, he⟩ := hfe
    subst hi
    subst he
    have hgen : generateCoreAddonsChart b st =
        (["InjectImages(calico)", "InjectImages(kube-dns)", "InjectImages(kube-proxy)",
          "InjectImages(metrics-server)", "InjectImages(vpn-shoot)"],
         Except.error e5) := by
      simp [generateCoreAddonsChart, stepLift, stepRun, stepBind,
        h0, hI1, hI2, hI3, hI4, hI5]
    rw [hgen]
    exact ⟨rfl, by intro s hs; simp only [List.mem_cons] at hs; simp [coreStageNames]; tauto⟩
  rcases hI6 : InjectImages b c.nodeExporter nodeExporterImages with e6 | v6
  · simp only [h0, hI1, hI2, hI3, hI4, hI5, hI6, discardE, firstError, Except.bind,
      Option.map, Option.some.injEq, Prod.mk.injEq] at hfe
    obtain ⟨hi, he⟩ := hfe
    subst hi
    subst he
    have hgen : generateCoreAddonsChart b st =
        (["InjectImages(calico)", "InjectImages(kube-dns)", "InjectImages(kube-proxy)",
          "InjectImages(metrics-server)", "InjectImages(vpn-shoot)",
          "InjectImages(node-exporter)"], Except.error e6) := by
      simp [generateCoreAddonsChart, stepLift, stepRun, stepBind,
        h0, hI1, hI2, hI3, hI4, hI5, hI6]
    rw [hgen]
    exact ⟨rfl, by intro s hs; simp only [List.mem_cons] at hs; simp [coreStageNames]; tauto⟩
  rcases h7d : derefSecretData b "vpn-shoot" with e7 | d7
  · simp only [h0, hI1, hI2, hI3, hI4, hI5, hI6, h7d, discardE, firstError, Except.bind,
      Option.map, Option.some.injEq, Prod.mk.injEq] at hfe
    obtain ⟨hi, he⟩ := hfe
    subst hi
    subst he
    have hgen : generateCoreAddonsChart b st =
        (["InjectImages(calico)", "InjectImages(kube-dns)", "InjectImages(kube-proxy)",
          "InjectImages(metrics-server)", "InjectImages(vpn-shoot)",
          "InjectImages(node-exporter)", "CreateSecret(vpn-shoot)"],
         Except.error e7) := by
      simp [generateCoreAddonsChart, stepLift, stepRun, stepBind,
        h0, hI1, hI2, hI3, hI4, hI5, hI6, h7d]
    rw [hgen]
    exact ⟨rfl, by intro s hs; simp only [List.mem_cons] at hs; simp [coreStageNames]; tauto⟩
  rcases h7c : createSecret st "vpn-shoot" d7 with e7 | st1
  · simp only [h0, hI1, hI2, hI3, hI4, hI5, hI6, h7d, h7c, discardE, firstError,
      Except.bind, Option.map, Option.some.injEq, Prod.mk.injEq] at hfe
    obtain ⟨hi, he⟩ := hfe
    subst hi
    subst he
    have hgen : generateCoreAddonsChart b st =
        (["InjectImages(calico)", "InjectImages(kube-dns)", "InjectImages(kube-proxy)",
          "InjectImages(metrics-server)", "InjectImages(vpn-shoot)",
          "InjectImages(node-exporter)", "CreateSecret(vpn-shoot)"],
         Except.error e7) := by
      simp [generateCoreAddonsChart, stepLift, stepRun, stepBind,
        h0, hI1, hI2, hI3, hI4, hI5, hI6, h7d, h7c]
    rw [hgen]
    exact ⟨rfl, by intro s hs; simp only [List.mem_cons] at hs; simp [coreStageNames]; tauto⟩
  rcases h8 : b.renderFailure with _ | m8
  · simp only [h0, hI1, hI2, hI3, hI4, hI5, hI6, h7d, h7c, h8, discardE, firstError,
      Except.bind, Option.map] at hfe
    exact Option.noConfusion hfe
  · simp only [h0, hI1, hI2, hI3, hI4, hI5, hI6, h7d, h7c, h8, discardE, firstError,
      Except.bind, Option.map, Option.some.injEq, Prod.mk.injEq] at hfe
    obtain ⟨hi, he⟩ := hfe
    subst hi
    subst he
    have hgen : generateCoreAddonsChart b st =
        (["InjectImages(calico)", "InjectImages(kube-dns)", "InjectImages(kube-proxy)",
          "InjectImages(metrics-server)", "InjectImages(vpn-shoot)",
          "InjectImages(node-exporter)", "CreateSecret(vpn-shoot)", "Render(shoot-core)"],
         Except.error (Err.external m8)) := by
      simp [generateCoreAddonsChart, stepLift, stepRun, stepBind,
        h0, hI1, hI2, hI3, hI4, hI5, hI6, h7d, h7c, render, h8]
    rw [hgen]
    exact ⟨rfl, by intro s hs; simp only [List.mem_cons] at hs; simp [coreStageNames]; tauto⟩

/-- C2: For both chart-generation functions, when the first failing stage
operation (config generation, image injection, listing, deletion loop,
secret creation or rendering) returns an error, the enclosing function
returns immediately with no chart and exactly that error value unmodified
(the spec-modelled driver then tags it with the stage name), and no stage
operation after the failing one appears in the invocation trace. -/
theorem stage_error_short_circuit (b : HybridBotanist) (st : ClusterState) :
    (∀ i e, firstError (optionalStageStatus b st) = some (i, e) →
      (generateOptionalAddonsChart b st).2 = Except.error e ∧
      deployStage "ComposeOptional" (generateOptionalAddonsChart b st).2 =
        Except.error (Err.tagged "ComposeOptional" e) ∧
      (∀ s, s ∈ (generateOptionalAddonsChart b st).1 →
        s ∈ optionalStageNames.take (i + 1))) ∧
    (∀ i e, firstError (coreStageStatus b st) = some (i, e) →
      (generateCoreAddonsChart b st).2 = Except.error e ∧
      deployStage "ComposeCore" (generateCoreAddonsChart b st).2 =
        Except.error (Err.tagged "ComposeCore" e) ∧
      (∀ s, s ∈ (generateCoreAddonsChart b st).1 → s ∈ coreStageNames.take (i + 1))) := by
  constructor
  · intro i e hfe
    obtain ⟨ha, hb⟩ := optional_firstError_aborts b st i e hfe
    exact ⟨ha, by rw [ha]; rfl, hb⟩
  · intro i e hfe
    obtain ⟨ha, hb⟩ := core_firstError_aborts b st i e hfe
    exact ⟨ha, by rw [ha]; rfl, hb⟩

/-- A botanist whose very first optional-stage generator fails. -/
def botStageFail : HybridBotanist :=
  { botFull with GenerateClusterAutoscalerConfig := Except.error (Err.external "boom") }

theorem stage_error_short_circuit_w :
    (generateOptionalAddonsChart botStageFail stClean).2 =
      Except.error (Err.external "boom") ∧
    deployStage "ComposeOptional" (generateOptionalAddonsChart botStageFail stClean).2 =
      Except.error (Err.tagged "ComposeOptional" (Err.external "boom")) ∧
    (∀ s, s ∈ (generateOptionalAddonsChart botStageFail stClean).1 →
      s ∈ optionalStageNames.take 1) :=
  (stage_error_short_circuit botStageFail stClean).1 0 (Err.external "boom") rfl

end Gardener
